import Mathlib

/-!
# cairo-vm.go: register updates and the range-check builtin

A shallow embedding of `pkg/vm/vm_core.go`, `pkg/builtins/range_check.go` and
`pkg/hints/math_hints.go`.

Go methods that mutate their receiver and return an `error` are embedded as functions
returning the receiver after the call together with the optional error; read-only
functions with a `(value, error)` result return `Except`.  Go `uint` values are natural
numbers and every `uint` addition or multiplication of the source is reduced modulo
`2 ^ 64`.

The packages `lambdaworks`, `memory`, `utils` and `hint_utils` and the file declaring
`Instruction` are imported by the sources but are not part of them; what the embedded functions use
of them is modelled from the specification and marked as such.
-/

namespace CairoVM

/-! ## Machine words -/

/-- Go conversion `uint(i)` of an `int`: the value modulo `2 ^ 64`. -/
def uintOfInt (i : Int) : Nat := (i % (2 ^ 64 : Int)).toNat

/-- Bit length of a natural number by repeated halving: `0` for `0`, and the position of
the highest set bit plus one otherwise.  The first argument bounds the number of halvings;
it is enough for every number below two to its power. -/
def bitLen : Nat → Nat → Nat
  | 0, _ => 0
  | fuel + 1, n => if n = 0 then 0 else bitLen fuel (n / 2) + 1

/-! ## lambdaworks: field elements -/

/-- Modelled from the spec: the prime `P = 2^251 + 17 * 2^192 + 1` of the field
(package `lambdaworks` is missing from the sources). -/
def PRIME : Nat := 2 ^ 251 + 17 * 2 ^ 192 + 1

/-- Modelled from the spec: `lambdaworks.Felt`, a residue class modulo `PRIME` stored as
its canonical non-negative representative in `[0, PRIME)`. -/
structure Felt where
  /-- The canonical representative. -/
  val : Nat
  /-- Every stored Felt is in canonical form. -/
  canonical : val < PRIME
deriving DecidableEq

/-- Modelled from the spec: `lambdaworks.FeltFromUint64`; constructors reduce their
argument modulo `PRIME`. -/
def FeltFromUint64 (n : Nat) : Felt :=
  ⟨n % 2 ^ 64 % PRIME, Nat.mod_lt _ (by decide)⟩

/-- Modelled from the spec: `Felt.Bits`, the bit length of the canonical representative:
`0` for the zero element and `⌈log2 (n + 1)⌉` otherwise. -/
def Felt.Bits (f : Felt) : Nat := bitLen 252 f.val

/-- Modelled from the spec: `Felt.ToSigned`, the signed view: a representative above
`PRIME / 2` stands for the negative number `val - PRIME`, so that the result is smaller
than `PRIME / 2` in absolute value. -/
def Felt.ToSigned (f : Felt) : Int :=
  if PRIME / 2 < f.val then (f.val : Int) - (PRIME : Int) else (f.val : Int)

/-- The method `BitLen` of `math/big.Int`: the length of the absolute value in bits. -/
def bigIntBitLen (x : Int) : Nat := bitLen 256 x.natAbs

/-- The method `Sign` of `math/big.Int`: `-1`, `0` or `1`. -/
def bigIntSign (x : Int) : Int := Int.sign x

/-- Modelled from the spec: `Felt.IsZero`; equality is representative equality. -/
def Felt.IsZero (f : Felt) : Bool := f.val == 0

/-! ## memory: addresses and tagged values -/

/-- Modelled from the spec: `memory.Relocatable`, a pair of a signed segment index and an
unsigned offset. -/
structure Relocatable where
  SegmentIndex : Int
  Offset : Nat
deriving DecidableEq, Repr

/-- Modelled from the spec: `memory.NewRelocatable`. -/
def NewRelocatable (segment_idx : Int) (offset : Nat) : Relocatable :=
  { SegmentIndex := segment_idx, Offset := offset }

/-- Modelled from the spec: `memory.MaybeRelocatable`, the tagged value with exactly the
two variants `Int(Felt)` and `Addr(Relocatable)`. -/
inductive MaybeRelocatable where
  | felt (f : Felt)
  | relocatable (r : Relocatable)
deriving DecidableEq

/-- Modelled from the spec: `memory.NewMaybeRelocatableFelt`. -/
def NewMaybeRelocatableFelt (f : Felt) : MaybeRelocatable := .felt f

/-- Modelled from the spec: `memory.NewMaybeRelocatableRelocatable`. -/
def NewMaybeRelocatableRelocatable (r : Relocatable) : MaybeRelocatable := .relocatable r

/-- Modelled from the spec: `MaybeRelocatable.GetRelocatable`, narrowing to the address
variant (the Go result `(value, ok)` is `some value` when `ok`). -/
def MaybeRelocatable.GetRelocatable : MaybeRelocatable → Option Relocatable
  | .relocatable r => some r
  | .felt _ => none

/-- Modelled from the spec: `MaybeRelocatable.GetFelt`, narrowing to the Int variant. -/
def MaybeRelocatable.GetFelt : MaybeRelocatable → Option Felt
  | .felt f => some f
  | .relocatable _ => none

/-- Modelled from the spec: `MaybeRelocatable.GetInt`, the name `vm_core.go` uses for the
narrowing to the Int variant. -/
def MaybeRelocatable.GetInt (m : MaybeRelocatable) : Option Felt := m.GetFelt

/-- Modelled from the spec: `MaybeRelocatable.IsZero`, true iff the value is `Int(0)`;
addresses are never zero. -/
def MaybeRelocatable.IsZero (m : MaybeRelocatable) : Bool :=
  match m.GetFelt with
  | some f => f.IsZero
  | none => false

/-! ## Errors -/

/-- Error values.  `New msg` is `errors.New(msg)` with the message of the source; the
formatted errors of `range_check.go` keep the values they print; the remaining
constructors are the error kinds the spec names for the missing packages. -/
inductive VMError where
  /-- The value of `errors.New(msg)`. -/
  | New (msg : String)
  /-- Spec: `Relocatable.add_felt` on a Felt that does not fit in an offset. -/
  | OffsetOverflow
  /-- Spec: adding an address to an address. -/
  | AddressToAddress
  /-- Spec: `Memory.get` on an address that holds no value. -/
  | MemoryGet (addr : Relocatable)
  /-- The wrapper `errors.Wrapf(err, "Range check error")`. -/
  | RangeCheck (err : VMError)
  /-- The message `Value %d is out of bounds [0, 2^128]`. -/
  | OutsideBounds (felt : Felt)
  /-- The message `Value %d found in %d is not a field element`. -/
  | NotAFelt (rel : Relocatable) (addr : Relocatable)
  /-- The message `number of steps must be at least %d for the %s builtin`. -/
  | InsufficientSteps (minStep : Nat) (name : String)
  /-- The message `error calculating builtin memory units: %s`. -/
  | MemoryUnits (err : VMError)
  /-- Spec: `utils.SafeDiv` on a division that is not exact. -/
  | NotDivisible (x : Nat) (y : Nat)
  /-- Division by zero reported by `utils.SafeDiv`. -/
  | DivisionByZero
  /-- The message `The builtin %s used %d cells but the capacity is %d`. -/
  | BuiltinOverflow (name : String) (used : Nat) (size : Nat)
  /-- A Go run-time panic (integer division by zero). -/
  | Panic
  /-- Spec: `Memory.insert` of a value that differs from the one already written. -/
  | InconsistentMemory
  /-- Spec: `get_felt` or `get_relocatable` on a cell of the other kind. -/
  | ExpectedKind (addr : Relocatable)
  /-- An identifier that the identifier table of a hint does not hold. -/
  | UnknownIdentifier (name : String)
  /-- The message `Assertion failed, 0 <= ids.a % PRIME < range_check_builtin.bound`,
  `a = %s is out of range` of `assert_nn`. -/
  | AssertNNOutOfRange (a : Felt)
  /-- The message `Assertion Failed: abs(val) < rc_bound, value=%s is out of the  valid
  range` of `is_positive`. -/
  | IsPositiveOutOfRange (signedValue : Int)
deriving DecidableEq

/-- Modelled from the spec: `Relocatable.AddFelt`; fails with *OffsetOverflow* when the
Felt does not fit in the native offset width, otherwise shifts the offset (a `uint`
addition) and keeps the segment. -/
def Relocatable.AddFelt (r : Relocatable) (other : Felt) : Except VMError Relocatable :=
  if other.val < 2 ^ 64 then
    .ok (NewRelocatable r.SegmentIndex ((r.Offset + other.val) % 2 ^ 64))
  else
    .error .OffsetOverflow

/-- Modelled from the spec: `Relocatable.AddMaybeRelocatable`, the tagged-value addition
on an address: Addr+Int shifts the offset, Addr+Addr is the *AddressToAddress* error. -/
def Relocatable.AddMaybeRelocatable (r : Relocatable) (other : MaybeRelocatable) :
    Except VMError Relocatable :=
  match other.GetFelt with
  | some f => r.AddFelt f
  | none => .error .AddressToAddress

/-! ## memory: cells and segments -/

/-- Modelled from the spec: the validation rules that can be registered in a memory.  A
rule is a pure function of the memory and the address just written; the sources define
one, `RangeCheckValidationRule`, and the memory keeps it by name. -/
inductive ValidationRule where
  | RangeCheck
deriving DecidableEq

/-- Modelled from the spec: `memory.Memory`, a finite mapping from addresses to tagged
values together with the number of segments, the validation rules registered per
segment and the addresses already validated. -/
structure Memory where
  data : List (Relocatable × MaybeRelocatable) := []
  numSegments : Nat := 0
  validationRules : List (Nat × ValidationRule) := []
  validatedAddresses : List Relocatable := []
deriving DecidableEq

/-- Modelled from the spec: `Memory.Get`; the Go result `(value, error)` is an error when
the address holds no value. -/
def Memory.Get (m : Memory) (addr : Relocatable) : Except VMError MaybeRelocatable :=
  match m.data.lookup addr with
  | some v => .ok v
  | none => .error (.MemoryGet addr)

/-- Modelled from the spec: `Memory.GetFelt`, which narrows the cell to a Felt or fails
with *ExpectedKind*. -/
def Memory.GetFelt (m : Memory) (addr : Relocatable) : Except VMError Felt :=
  match m.Get addr with
  | .error err => .error err
  | .ok v =>
    match v.GetFelt with
    | some f => .ok f
    | none => .error (.ExpectedKind addr)

/-- Modelled from the spec: `Memory.AddValidationRule`, append-only registration of a rule
for a segment. -/
def Memory.AddValidationRule (m : Memory) (segmentIndex : Nat) (rule : ValidationRule) :
    Memory :=
  { m with validationRules := m.validationRules ++ [(segmentIndex, rule)] }

/-- Modelled from the spec: `memory.MemorySegmentManager`, the owner of the memory. -/
structure MemorySegmentManager where
  Memory : Memory := {}
deriving DecidableEq

/-- Modelled from the spec: `memory.NewMemorySegmentManager`. -/
def NewMemorySegmentManager : MemorySegmentManager := {}

/-- Modelled from the spec: `MemorySegmentManager.GetSegmentUsedSize`, the used-size
watermark of a segment: the maximal written offset plus one (zero when nothing is
written). -/
def MemorySegmentManager.GetSegmentUsedSize (m : MemorySegmentManager) (segmentIndex : Nat) :
    Except VMError Nat :=
  .ok ((m.Memory.data.filter (fun c => c.1.SegmentIndex == (segmentIndex : Int))).foldl
    (fun acc c => max acc (c.1.Offset + 1)) 0)

/-- Modelled from the spec: `MemorySegmentManager.AddSegment`, which appends a segment and
returns the address at offset 0 of the next free index. -/
def MemorySegmentManager.AddSegment (m : MemorySegmentManager) :
    MemorySegmentManager × Relocatable :=
  ({ m with Memory := { m.Memory with numSegments := (m.Memory.numSegments + 1) % 2 ^ 64 } },
    NewRelocatable (m.Memory.numSegments : Int) 0)

/-! ## utils -/

/-- Modelled from the spec: `utils.SafeDiv`, the exact division that fails when the
division is not exact. -/
def SafeDiv (x y : Nat) : Except VMError Nat :=
  if y = 0 then .error .DivisionByZero
  else if x % y ≠ 0 then .error (.NotDivisible x y)
  else .ok (x / y)

/-- Modelled from the spec: `utils.NextPowOf2`, the least power of two that is at least
the argument. -/
def NextPowOf2 (n : Nat) : Nat := 2 ^ bitLen 64 (n - 1)

/-! ## builtins: the range-check runner (`pkg/builtins/range_check.go`) -/

def RANGE_CHECK_BUILTIN_NAME : String := "range_check"

def INNER_RC_BOUND_SHIFT : Nat := 16

def INNER_RC_BOUND_MASK : Nat := 65535

def CELLS_PER_RANGE_CHECK : Nat := 1

def N_PARTS : Nat := 8

def RangeCheckError (err : VMError) : VMError := .RangeCheck err

def OutsideBoundsError (felt : Felt) : VMError :=
  RangeCheckError (.OutsideBounds felt)

/-- The discarded flag of `val.GetRelocatable()` leaves the zero address when `val` is
not an address. -/
def NotAFeltError (addr : Relocatable) (val : MaybeRelocatable) : VMError :=
  let rel := val.GetRelocatable.getD (NewRelocatable 0 0)
  RangeCheckError (.NotAFelt rel addr)

structure RangeCheckBuiltinRunner where
  base : Relocatable := NewRelocatable 0 0
  included : Bool := false
  ratio : Nat := 0
  instancesPerComponent : Nat := 0
deriving DecidableEq

def NewRangeCheckBuiltinRunner (ratio : Nat) : RangeCheckBuiltinRunner :=
  { ratio := ratio, instancesPerComponent := 1 }

def DefaultRangeCheckBuiltinRunner : RangeCheckBuiltinRunner :=
  NewRangeCheckBuiltinRunner 8

def RangeCheckBuiltinRunner.Base (r : RangeCheckBuiltinRunner) : Relocatable := r.base

def RangeCheckBuiltinRunner.Name (_r : RangeCheckBuiltinRunner) : String :=
  RANGE_CHECK_BUILTIN_NAME

def RangeCheckBuiltinRunner.InitialStack (r : RangeCheckBuiltinRunner) : List MaybeRelocatable :=
  if r.included then [NewMaybeRelocatableRelocatable r.base] else []

def RangeCheckValidationRule (mem : Memory) (address : Relocatable) :
    Except VMError (List Relocatable) :=
  match mem.Get address with
  | .error err => .error err
  | .ok res_val =>
    match res_val.GetFelt with
    | none => .error (NotAFeltError address res_val)
    | some felt =>
      if felt.Bits ≤ N_PARTS * INNER_RC_BOUND_SHIFT then .ok [address]
      else .error (OutsideBoundsError felt)

def RangeCheckBuiltinRunner.Include (r : RangeCheckBuiltinRunner) (incl : Bool) :
    RangeCheckBuiltinRunner :=
  { r with included := incl }

def RangeCheckBuiltinRunner.Ratio (r : RangeCheckBuiltinRunner) : Nat := r.ratio

def RangeCheckBuiltinRunner.CellsPerInstance (_r : RangeCheckBuiltinRunner) : Nat :=
  CELLS_PER_RANGE_CHECK

def RangeCheckBuiltinRunner.GetAllocatedMemoryUnits (r : RangeCheckBuiltinRunner)
    (segments : MemorySegmentManager) (currentStep : Nat) : Except VMError Nat :=
  if r.Ratio = 0 then
    match segments.GetSegmentUsedSize (uintOfInt r.base.SegmentIndex) with
    | .error err => .error err
    | .ok used =>
      let instances := used / r.CellsPerInstance
      if r.instancesPerComponent = 0 then .error .Panic
      else
        let components := NextPowOf2 (instances / r.instancesPerComponent)
        let size := r.CellsPerInstance * r.instancesPerComponent % 2 ^ 64 * components % 2 ^ 64
        .ok size
  else
    let minStep := r.ratio * r.instancesPerComponent % 2 ^ 64
    if currentStep < minStep then
      .error (.InsufficientSteps minStep r.Name)
    else
      match SafeDiv currentStep r.ratio with
      | .error err => .error (.MemoryUnits err)
      | .ok value => .ok (r.CellsPerInstance * value % 2 ^ 64)

/-- The method `InitializeSegments`: the runner and the segment manager after the call. -/
def RangeCheckBuiltinRunner.InitializeSegments (r : RangeCheckBuiltinRunner)
    (segments : MemorySegmentManager) : RangeCheckBuiltinRunner × MemorySegmentManager :=
  ({ r with base := segments.AddSegment.2 }, segments.AddSegment.1)

def RangeCheckBuiltinRunner.DeduceMemoryCell (_r : RangeCheckBuiltinRunner)
    (_addr : Relocatable) (_mem : Memory) : Except VMError (Option MaybeRelocatable) :=
  .ok none

/-- The method `AddValidationRule`: the memory after the call. -/
def RangeCheckBuiltinRunner.AddValidationRule (r : RangeCheckBuiltinRunner) (mem : Memory) :
    Memory :=
  mem.AddValidationRule (uintOfInt r.base.SegmentIndex) .RangeCheck

/-- The method `GetUsedCellsAndAllocatedSizes`.  The `err` of `GetAllocatedMemoryUnits` is
assigned and never tested; on each of its error returns `GetAllocatedMemoryUnits` gives
the size `0`.  A run-time panic of the callee is a panic of the caller. -/
def RangeCheckBuiltinRunner.GetUsedCellsAndAllocatedSizes (r : RangeCheckBuiltinRunner)
    (segments : MemorySegmentManager) (currentStep : Nat) : Except VMError (Nat × Nat) :=
  match segments.GetSegmentUsedSize (uintOfInt r.base.SegmentIndex) with
  | .error err => .error err
  | .ok used =>
    match r.GetAllocatedMemoryUnits segments currentStep with
    | .error .Panic => .error .Panic
    | allocated =>
      let size := match allocated with
        | .ok size => size
        | .error _ => 0
      if used > size then .error (.BuiltinOverflow r.Name used size)
      else .ok (used, size)

/-- The operations of a range-check runner, with their arguments. -/
inductive RunnerOp where
  | InitializeSegments (segments : MemorySegmentManager)
  | Include (incl : Bool)
  | AddValidationRule (mem : Memory)
  | GetAllocatedMemoryUnits (segments : MemorySegmentManager) (currentStep : Nat)
  | GetUsedCellsAndAllocatedSizes (segments : MemorySegmentManager) (currentStep : Nat)
  | DeduceMemoryCell (addr : Relocatable) (mem : Memory)

/-- The runner after one operation: `InitializeSegments` assigns `base`, `Include` assigns
`included`, and the other methods assign no field of their receiver. -/
def RangeCheckBuiltinRunner.after (r : RangeCheckBuiltinRunner) :
    RunnerOp → RangeCheckBuiltinRunner
  | .InitializeSegments segments => (r.InitializeSegments segments).1
  | .Include incl => r.Include incl
  | .AddValidationRule _ => r
  | .GetAllocatedMemoryUnits _ _ => r
  | .GetUsedCellsAndAllocatedSizes _ _ => r
  | .DeduceMemoryCell _ _ => r

/-- The runner after a sequence of operations. -/
def RangeCheckBuiltinRunner.afterAll (r : RangeCheckBuiltinRunner) :
    List RunnerOp → RangeCheckBuiltinRunner
  | [] => r
  | op :: ops => (r.after op).afterAll ops

/-! ## memory: insertion and validation -/

/-- The function a registered rule stands for. -/
def ValidationRule.apply : ValidationRule → Memory → Relocatable →
    Except VMError (List Relocatable)
  | .RangeCheck => RangeCheckValidationRule

/-- Modelled from the spec: the firing of the validation rules of the segment of an
address just written; an address already validated fires nothing, an error of a rule
aborts, and the addresses a rule returns are recorded as validated. -/
def Memory.validateAddress (m : Memory) (addr : Relocatable) : Memory × Option VMError :=
  if addr ∈ m.validatedAddresses then (m, none)
  else
    (m.validationRules.filter (fun p => (p.1 : Int) == addr.SegmentIndex)).foldl
      (fun acc p =>
        match acc with
        | (mem, some err) => (mem, some err)
        | (mem, none) =>
          match p.2.apply mem addr with
          | .error err => (mem, some err)
          | .ok validated =>
            ({ mem with validatedAddresses := validated ++ mem.validatedAddresses }, none))
      (m, none)

/-- Modelled from the spec: `Memory.Insert`; overwriting a cell with a different value
fails with *InconsistentMemory*, overwriting with the same value is a no-op, and a new
cell is recorded and then validated (the write is retained when a rule fails). -/
def Memory.Insert (m : Memory) (addr : Relocatable) (val : MaybeRelocatable) :
    Memory × Option VMError :=
  match m.data.lookup addr with
  | some prev => if prev = val then (m, none) else (m, some .InconsistentMemory)
  | none => ({ m with data := (addr, val) :: m.data }).validateAddress addr

/-! ## vm: the register updates (`pkg/vm/vm_core.go`) -/

/-- Modelled from the spec: the register selectors of an instruction. -/
inductive Register where
  | AP
  | FP
deriving DecidableEq

/-- Modelled from the spec: the `op1` addressing mode. -/
inductive Op1Src where
  | Op1SrcImm
  | Op1SrcAP
  | Op1SrcFP
  | Op1SrcOp0
deriving DecidableEq

/-- Modelled from the spec: the result rule. -/
inductive ResLogic where
  | ResOp1
  | ResAdd
  | ResMul
  | ResUnconstrained
deriving DecidableEq

/-- Modelled from the spec: the PC-update rule. -/
inductive PcUpdate where
  | PcUpdateRegular
  | PcUpdateJump
  | PcUpdateJumpRel
  | PcUpdateJnz
deriving DecidableEq

/-- Modelled from the spec: the AP-update rule. -/
inductive ApUpdate where
  | ApUpdateRegular
  | ApUpdateAdd
  | ApUpdateAdd1
  | ApUpdateAdd2
deriving DecidableEq

/-- Modelled from the spec: the FP-update rule. -/
inductive FpUpdate where
  | FpUpdateRegular
  | FpUpdateAPPlus2
  | FpUpdateDst
deriving DecidableEq

/-- Modelled from the spec: the residue opcode. -/
inductive Opcode where
  | NOp
  | Call
  | Ret
  | AssertEq
deriving DecidableEq

/-- Modelled from the spec: the decoded `Instruction` record. -/
structure Instruction where
  OffDst : Int := 0
  OffOp0 : Int := 0
  OffOp1 : Int := 0
  DstReg : Register := .AP
  Op0Reg : Register := .AP
  Op1Addr : Op1Src := .Op1SrcAP
  ResLogic : ResLogic := .ResOp1
  PcUpdate : PcUpdate := .PcUpdateRegular
  ApUpdate : ApUpdate := .ApUpdateRegular
  FpUpdate : FpUpdate := .FpUpdateRegular
  Opcode : Opcode := .NOp
deriving DecidableEq

/-- Modelled from the spec: `Instruction.Size`, 1 if the `op1` mode is not IMM, else 2. -/
def Instruction.Size (i : Instruction) : Nat :=
  if i.Op1Addr = .Op1SrcImm then 2 else 1

/-- Modelled from the spec: `RunContext`, the three registers. -/
structure RunContext where
  Pc : Relocatable := NewRelocatable 0 0
  Ap : Relocatable := NewRelocatable 0 0
  Fp : Relocatable := NewRelocatable 0 0
deriving DecidableEq

structure VirtualMachine where
  RunContext : RunContext := {}
  currentStep : Nat := 0
  Segments : MemorySegmentManager := {}
deriving DecidableEq

def NewVirtualMachine : VirtualMachine :=
  { Segments := NewMemorySegmentManager }

structure Operands where
  Dst : MaybeRelocatable
  Res : Option MaybeRelocatable
  Op0 : MaybeRelocatable
  Op1 : MaybeRelocatable
deriving DecidableEq

/-- The assignment `vm.RunContext.Pc = pc`. -/
def VirtualMachine.setPc (vm : VirtualMachine) (pc : Relocatable) : VirtualMachine :=
  { vm with RunContext := { vm.RunContext with Pc := pc } }

/-- The assignment `vm.RunContext.Ap = ap`. -/
def VirtualMachine.setAp (vm : VirtualMachine) (ap : Relocatable) : VirtualMachine :=
  { vm with RunContext := { vm.RunContext with Ap := ap } }

/-- The assignment `vm.RunContext.Fp = fp`. -/
def VirtualMachine.setFp (vm : VirtualMachine) (fp : Relocatable) : VirtualMachine :=
  { vm with RunContext := { vm.RunContext with Fp := fp } }

/-- Updates the value of PC according to the executed instruction. -/
def VirtualMachine.UpdatePc (vm : VirtualMachine) (instruction : Instruction)
    (operands : Operands) : VirtualMachine × Option VMError :=
  match instruction.PcUpdate with
  | .PcUpdateRegular =>
    (vm.setPc { vm.RunContext.Pc with
      Offset := (vm.RunContext.Pc.Offset + instruction.Size) % 2 ^ 64 }, none)
  | .PcUpdateJump =>
    match operands.Res with
    | none => (vm, some (.New "Res.UNCONSTRAINED cannot be used with PcUpdate.JUMP"))
    | some res =>
      match res.GetRelocatable with
      | none => (vm, some (.New "An integer value as Res cannot be used with PcUpdate.JUMP"))
      | some res => (vm.setPc res, none)
  | .PcUpdateJumpRel =>
    match operands.Res with
    | none => (vm, some (.New "Res.UNCONSTRAINED cannot be used with PcUpdate.JUMP_REL"))
    | some res =>
      match res.GetInt with
      | none =>
        (vm, some (.New "A relocatable value as Res cannot be used with PcUpdate.JUMP_REL"))
      | some res =>
        match vm.RunContext.Pc.AddFelt res with
        | .error err => (vm, some err)
        | .ok new_pc => (vm.setPc new_pc, none)
  | .PcUpdateJnz =>
    if operands.Dst.IsZero then
      (vm.setPc { vm.RunContext.Pc with
        Offset := (vm.RunContext.Pc.Offset + instruction.Size) % 2 ^ 64 }, none)
    else
      match vm.RunContext.Pc.AddMaybeRelocatable operands.Op1 with
      | .error err => (vm, some err)
      | .ok new_pc => (vm.setPc new_pc, none)

/-- Updates the value of AP according to the executed instruction. -/
def VirtualMachine.UpdateAp (vm : VirtualMachine) (instruction : Instruction)
    (operands : Operands) : VirtualMachine × Option VMError :=
  match instruction.ApUpdate with
  | .ApUpdateAdd =>
    match operands.Res with
    | none => (vm, some (.New "Res.UNCONSTRAINED cannot be used with ApUpdate.ADD"))
    | some res =>
      match vm.RunContext.Ap.AddMaybeRelocatable res with
      | .error err => (vm, some err)
      | .ok new_ap => (vm.setAp new_ap, none)
  | .ApUpdateAdd1 =>
    (vm.setAp { vm.RunContext.Ap with Offset := (vm.RunContext.Ap.Offset + 1) % 2 ^ 64 }, none)
  | .ApUpdateAdd2 =>
    (vm.setAp { vm.RunContext.Ap with Offset := (vm.RunContext.Ap.Offset + 2) % 2 ^ 64 }, none)
  | .ApUpdateRegular => (vm, none)

/-- Updates the value of FP according to the executed instruction.  In the `Dst` rule the
flag of `operands.Dst.GetInt()` is discarded, which leaves the zero Felt when `Dst` is
not an Int. -/
def VirtualMachine.UpdateFp (vm : VirtualMachine) (instruction : Instruction)
    (operands : Operands) : VirtualMachine × Option VMError :=
  match instruction.FpUpdate with
  | .FpUpdateAPPlus2 =>
    (vm.setFp { vm.RunContext.Fp with Offset := (vm.RunContext.Ap.Offset + 2) % 2 ^ 64 }, none)
  | .FpUpdateDst =>
    match operands.Dst.GetRelocatable with
    | some rel => (vm.setFp rel, none)
    | none =>
      let felt := operands.Dst.GetInt.getD (FeltFromUint64 0)
      match vm.RunContext.Fp.AddFelt felt with
      | .error err => (vm, some err)
      | .ok new_fp => (vm.setFp new_fp, none)
  | .FpUpdateRegular => (vm, none)

/-! ## hints: `assert_nn` and `is_positive` (`pkg/hints/math_hints.go`) -/

/-- Modelled from the spec: the constant `builtins.RANGE_CHECK_N_PARTS` that
`math_hints.go` names; `range_check.go` declares the number of parts as `N_PARTS = 8`. -/
def RANGE_CHECK_N_PARTS : Nat := 8

/-- Modelled from the spec: `hint_utils.IdsManager`, the identifier-reference map of a
hint.  The resolution of a reference against the registers is outside the specified core;
each identifier is kept with the address its reference resolves to. -/
structure IdsManager where
  References : List (String × Relocatable) := []
deriving DecidableEq

/-- Modelled from the spec: `IdsManager.GetAddr`, the address of an identifier. -/
def IdsManager.GetAddr (ids : IdsManager) (name : String) (_vm : VirtualMachine) :
    Except VMError Relocatable :=
  match ids.References.lookup name with
  | some addr => .ok addr
  | none => .error (.UnknownIdentifier name)

/-- Modelled from the spec: `IdsManager.GetFelt`, the Felt stored at an identifier. -/
def IdsManager.GetFelt (ids : IdsManager) (name : String) (vm : VirtualMachine) :
    Except VMError Felt :=
  match ids.GetAddr name vm with
  | .error err => .error err
  | .ok addr => vm.Segments.Memory.GetFelt addr

/-- Modelled from the spec: `IdsManager.Insert`, the insertion of a value into the memory
cell of an identifier: the machine after the call and the optional error. -/
def IdsManager.Insert (ids : IdsManager) (name : String) (value : MaybeRelocatable)
    (vm : VirtualMachine) : VirtualMachine × Option VMError :=
  match ids.GetAddr name vm with
  | .error err => (vm, some err)
  | .ok addr =>
    ({ vm with Segments := { vm.Segments with
        Memory := (vm.Segments.Memory.Insert addr value).1 } },
      (vm.Segments.Memory.Insert addr value).2)

/-- The hint `assert_nn`: the returned error, `none` for `nil`. -/
def assert_nn (ids : IdsManager) (vm : VirtualMachine) : Option VMError :=
  match ids.GetFelt "a" vm with
  | .error err => some err
  | .ok a =>
    if a.Bits ≥ RANGE_CHECK_N_PARTS * INNER_RC_BOUND_SHIFT then
      some (.AssertNNOutOfRange a)
    else none

/-- The hint `is_positive`: the machine after the call and the returned error.  The
result of `ids.Insert` is discarded and the hint returns `nil` after it. -/
def is_positive (ids : IdsManager) (vm : VirtualMachine) : VirtualMachine × Option VMError :=
  match ids.GetFelt "value" vm with
  | .error err => (vm, some err)
  | .ok value =>
    let signedValue := value.ToSigned
    if bigIntBitLen signedValue ≥ RANGE_CHECK_N_PARTS * INNER_RC_BOUND_SHIFT then
      (vm, some (.IsPositiveOutOfRange signedValue))
    else
      let is_positive_flag := if bigIntSign signedValue = 1 then 1 else 0
      ((ids.Insert "is_positive"
        (NewMaybeRelocatableFelt (FeltFromUint64 is_positive_flag)) vm).1, none)

/-! ## Data of the end-to-end scenarios -/

/-- The Felt `2 ^ 129` of scenario S6. -/
def felt_2_129 : Felt := ⟨2 ^ 129, by decide⟩

/-- Scenario S6: a memory whose cell `(2,0)` holds `Felt(55)`. -/
def memS6Felt : Memory :=
  { data := [(NewRelocatable 2 0, .felt (FeltFromUint64 55))], numSegments := 3 }

/-- Scenario S6: a memory whose cell `(2,0)` holds `Felt(2^129)`. -/
def memS6Big : Memory :=
  { data := [(NewRelocatable 2 0, .felt felt_2_129)], numSegments := 3 }

/-- Scenario S6: a memory whose cell `(2,0)` holds `Addr(0,0)`. -/
def memS6Addr : Memory :=
  { data := [(NewRelocatable 2 0, .relocatable (NewRelocatable 0 0))], numSegments := 3 }

/-- A virtual machine with the given registers and an empty segment manager. -/
def vmWith (pc ap fp : Relocatable) : VirtualMachine :=
  { RunContext := { Pc := pc, Ap := ap, Fp := fp } }

/-- Operands holding `dst`, `res` and `op1`; `op0` is `Int(0)`. -/
def operandsWith (dst : MaybeRelocatable) (res : Option MaybeRelocatable)
    (op1 : MaybeRelocatable) : Operands :=
  { Dst := dst, Res := res, Op0 := .felt (FeltFromUint64 0), Op1 := op1 }

/-- The tagged value `Int(n)`. -/
def intValue (n : Nat) : MaybeRelocatable := .felt (FeltFromUint64 n)

/-- The tagged value `Addr(segment, offset)`. -/
def addrValue (segment : Int) (offset : Nat) : MaybeRelocatable :=
  .relocatable (NewRelocatable segment offset)

/-- Scenario S3: registers with `pc = (0,10)`. -/
def vmS3 : VirtualMachine :=
  vmWith (NewRelocatable 0 10) (NewRelocatable 1 0) (NewRelocatable 1 0)

/-- Scenario S3: a `Jnz` instruction of size 1. -/
def instrJnz : Instruction := { PcUpdate := .PcUpdateJnz }

/-- A `JumpRel` instruction. -/
def instrJumpRel : Instruction := { PcUpdate := .PcUpdateJumpRel }

/-- Scenario S4: registers with `ap = (1,4)`. -/
def vmS4 : VirtualMachine :=
  vmWith (NewRelocatable 0 0) (NewRelocatable 1 4) (NewRelocatable 1 0)

/-- Scenario S4: an instruction with `ApUpdate = Add`. -/
def instrApAdd : Instruction := { ApUpdate := .ApUpdateAdd }

/-- Scenario S5: registers with `fp = (1,4)`. -/
def vmS5 : VirtualMachine :=
  vmWith (NewRelocatable 0 0) (NewRelocatable 1 9) (NewRelocatable 1 4)

/-- Scenario S5: an instruction with `FpUpdate = Dst`. -/
def instrFpDst : Instruction := { FpUpdate := .FpUpdateDst }

/-- Registers whose `fp` lies in another segment than `ap`: `ap = (1,4)`, `fp = (0,0)`. -/
def vmFpElsewhere : VirtualMachine :=
  vmWith (NewRelocatable 0 0) (NewRelocatable 1 4) (NewRelocatable 0 0)

/-- The FP rule of a `Call`: `FpUpdate = APPlus2`. -/
def instrCall : Instruction :=
  { Opcode := .Call, FpUpdate := .FpUpdateAPPlus2, PcUpdate := .PcUpdateJump }

/-- The Felt `2 ^ 64 + 1`, the least Felt above the largest offset but one. -/
def felt_2_64_plus_1 : Felt := ⟨2 ^ 64 + 1, by decide⟩

/-- The Felt `2 ^ 127`. -/
def felt_2_127 : Felt := ⟨2 ^ 127, by decide⟩

/-- A segment manager with three segments whose third segment, the one of the builtin,
holds no cell. -/
def segmentsUnusedBuiltin : MemorySegmentManager :=
  { Memory := { data := [(NewRelocatable 0 0, intValue 1), (NewRelocatable 1 0, intValue 2)],
                numSegments := 3 } }

/-- The default runner (ratio 8), included, with its base at segment 2. -/
def runnerAtSegment2 : RangeCheckBuiltinRunner :=
  { DefaultRangeCheckBuiltinRunner with base := NewRelocatable 2 0, included := true }

/-- A segment manager whose segment 0 holds cells at the offsets 0 to 4. -/
def segmentsFiveUsed : MemorySegmentManager :=
  { Memory := { data := [(NewRelocatable 0 0, intValue 1), (NewRelocatable 0 1, intValue 2),
                  (NewRelocatable 0 2, intValue 3), (NewRelocatable 0 3, intValue 4),
                  (NewRelocatable 0 4, intValue 5)],
                numSegments := 1 } }

/-- A segment manager whose segment 0 holds one cell, at the offset `2 ^ 63`, so that the
used size of the segment is `2 ^ 63 + 1`. -/
def segmentsHugeOffset : MemorySegmentManager :=
  { Memory := { data := [(NewRelocatable 0 (2 ^ 63), intValue 1)], numSegments := 1 } }

/-- A runner in dynamic layout with two instances per component. -/
def runnerTwoPerComponent : RangeCheckBuiltinRunner :=
  { ratio := 0, instancesPerComponent := 2 }

/-- A machine whose cell `(1,0)` holds `Felt(2^127)`. -/
def vmHolding2pow127 : VirtualMachine :=
  { RunContext := { Pc := NewRelocatable 0 0, Ap := NewRelocatable 1 2, Fp := NewRelocatable 1 0 },
    Segments := { Memory := { data := [(NewRelocatable 1 0, .felt felt_2_127)],
                              numSegments := 2 } } }

/-- The identifiers of `assert_nn`: `a` at `(1,0)`. -/
def idsAssertNN : IdsManager := { References := [("a", NewRelocatable 1 0)] }

/-- The identifiers of `is_positive`: `value` at `(1,0)` and `is_positive` at `(1,1)`. -/
def idsIsPositive : IdsManager :=
  { References := [("value", NewRelocatable 1 0), ("is_positive", NewRelocatable 1 1)] }

/-- A machine whose cell `(1,0)` holds `Int(5)` and whose cell `(1,1)` already holds
`Int(0)`. -/
def vmIsPositiveWritten : VirtualMachine :=
  { RunContext := { Pc := NewRelocatable 0 0, Ap := NewRelocatable 1 2, Fp := NewRelocatable 1 0 },
    Segments := { Memory := { data := [(NewRelocatable 1 0, intValue 5),
                                       (NewRelocatable 1 1, intValue 0)],
                              numSegments := 2 } } }

/-- A run of runner operations: segment initialisation, inclusion, rule registration and
the two accounting queries. -/
def runnerOpsSample : List RunnerOp :=
  [.InitializeSegments segmentsUnusedBuiltin, .Include true,
   .AddValidationRule segmentsUnusedBuiltin.Memory,
   .GetAllocatedMemoryUnits segmentsUnusedBuiltin 16,
   .GetUsedCellsAndAllocatedSizes segmentsUnusedBuiltin 16,
   .DeduceMemoryCell (NewRelocatable 3 0) segmentsUnusedBuiltin.Memory]

/-- Scenario S1: registers with `pc = (0,0)`. -/
def vmS1 : VirtualMachine :=
  vmWith (NewRelocatable 0 0) (NewRelocatable 1 0) (NewRelocatable 1 0)

/-- A `Jump` instruction. -/
def instrJump : Instruction := { PcUpdate := .PcUpdateJump }

/-! ## Auxiliary facts -/

theorem PRIME_lt : PRIME < 2 ^ 252 := by decide

theorem bitLen_le_iff (fuel : Nat) : ∀ n k : Nat, n < 2 ^ fuel →
    (bitLen fuel n ≤ k ↔ n < 2 ^ k) := by
  induction fuel with
  | zero =>
    intro n k hn
    have h0 : n = 0 := by simpa using hn
    subst h0
    simp [bitLen]
  | succ fuel ih =>
    intro n k hn
    by_cases h0 : n = 0
    · subst h0
      simp [bitLen]
    · have hhalf : n / 2 < 2 ^ fuel := by
        rw [Nat.div_lt_iff_lt_mul (by decide)]
        rw [pow_succ] at hn
        exact hn
      cases k with
      | zero =>
        simp [bitLen, h0]
      | succ k =>
        have := ih (n / 2) k hhalf
        simp only [bitLen, h0, if_false, Nat.add_le_add_iff_right]
        rw [this, Nat.div_lt_iff_lt_mul (by decide), pow_succ]

theorem Felt.Bits_le_iff (f : Felt) (k : Nat) : f.Bits ≤ k ↔ f.val < 2 ^ k :=
  bitLen_le_iff 252 f.val k (lt_trans f.canonical PRIME_lt)

theorem MaybeRelocatable.IsZero_iff (m : MaybeRelocatable) :
    m.IsZero = true ↔ ∃ f : Felt, m = .felt f ∧ f.val = 0 := by
  cases m with
  | felt f => simp [MaybeRelocatable.IsZero, MaybeRelocatable.GetFelt, Felt.IsZero]
  | relocatable r => simp [MaybeRelocatable.IsZero, MaybeRelocatable.GetFelt]

theorem Relocatable.AddFelt_ok_iff (r : Relocatable) (f : Felt) (new_r : Relocatable) :
    r.AddFelt f = .ok new_r ↔
      f.val < 2 ^ 64 ∧ new_r = NewRelocatable r.SegmentIndex ((r.Offset + f.val) % 2 ^ 64) := by
  unfold Relocatable.AddFelt
  by_cases h : f.val < 2 ^ 64
  · rw [if_pos h]
    constructor
    · intro hok
      exact ⟨h, (Except.ok.inj hok).symm⟩
    · intro hnew
      rw [hnew.2]
  · rw [if_neg h]
    constructor
    · intro hok
      cases hok
    · intro hnew
      exact absurd hnew.1 h

theorem RangeCheckBuiltinRunner.GetAllocatedMemoryUnits_of_ratio_pos
    (r : RangeCheckBuiltinRunner) (segments : MemorySegmentManager) (currentStep : Nat)
    (hratio : 0 < r.ratio) :
    r.GetAllocatedMemoryUnits segments currentStep =
      if currentStep < r.ratio * r.instancesPerComponent % 2 ^ 64 then
        .error (.InsufficientSteps (r.ratio * r.instancesPerComponent % 2 ^ 64) r.Name)
      else if currentStep % r.ratio ≠ 0 then
        .error (.MemoryUnits (.NotDivisible currentStep r.ratio))
      else .ok (r.CellsPerInstance * (currentStep / r.ratio) % 2 ^ 64) := by
  have hne : r.ratio ≠ 0 := Nat.pos_iff_ne_zero.mp hratio
  unfold RangeCheckBuiltinRunner.GetAllocatedMemoryUnits
  rw [if_neg (show ¬ r.Ratio = 0 from hne)]
  by_cases hmin : currentStep < r.ratio * r.instancesPerComponent % 2 ^ 64
  · simp only [if_pos hmin]
  · simp only [if_neg hmin]
    unfold SafeDiv
    rw [if_neg hne]
    by_cases hdiv : currentStep % r.ratio ≠ 0
    · simp only [if_pos hdiv]
    · simp only [if_neg hdiv]

theorem RangeCheckBuiltinRunner.cells_mul_div_lt (r : RangeCheckBuiltinRunner)
    (currentStep : Nat) (hstep : currentStep < 2 ^ 64) :
    r.CellsPerInstance * (currentStep / r.ratio) < 2 ^ 64 := by
  have hle : currentStep / r.ratio ≤ currentStep := Nat.div_le_self _ _
  simp only [RangeCheckBuiltinRunner.CellsPerInstance, CELLS_PER_RANGE_CHECK, one_mul]
  exact lt_of_le_of_lt hle hstep

theorem bitLen_lt_two_pow (fuel n : Nat) (hn : n < 2 ^ fuel) : n < 2 ^ bitLen fuel n :=
  (bitLen_le_iff fuel n (bitLen fuel n) hn).1 (le_refl _)

theorem NextPowOf2_ge (n : Nat) (hn : n ≤ 2 ^ 64) : n ≤ NextPowOf2 n := by
  have hpred : n - 1 < 2 ^ 64 := by
    have h0 : 0 < 2 ^ 64 := Nat.pow_pos (by decide)
    omega
  have hlt := bitLen_lt_two_pow 64 (n - 1) hpred
  unfold NextPowOf2
  omega

theorem NextPowOf2_le_of_le_two_pow (n j : Nat) (hn : n ≤ 2 ^ 64) (hj : n ≤ 2 ^ j) :
    NextPowOf2 n ≤ 2 ^ j := by
  have hpred : n - 1 < 2 ^ 64 := by
    have h0 : 0 < 2 ^ 64 := Nat.pow_pos (by decide)
    omega
  have hlt : n - 1 < 2 ^ j := by
    have h0 : 0 < 2 ^ j := Nat.pow_pos (by decide)
    omega
  have hlen : bitLen 64 (n - 1) ≤ j := (bitLen_le_iff 64 (n - 1) j hpred).2 hlt
  unfold NextPowOf2
  exact Nat.pow_le_pow_right (by decide) hlen

theorem RangeCheckBuiltinRunner.GetAllocatedMemoryUnits_dynamic_eq
    (r : RangeCheckBuiltinRunner) (segments : MemorySegmentManager) (currentStep used : Nat)
    (hratio : r.ratio = 0) (hipc : r.instancesPerComponent = 1)
    (hused : segments.GetSegmentUsedSize (uintOfInt r.base.SegmentIndex) = .ok used)
    (hfit : used ≤ 2 ^ 63) :
    r.GetAllocatedMemoryUnits segments currentStep = .ok (NextPowOf2 used) := by
  have hle : NextPowOf2 used ≤ 2 ^ 63 :=
    NextPowOf2_le_of_le_two_pow used 63 (le_trans hfit (by decide)) hfit
  have hlt : NextPowOf2 used < 2 ^ 64 := lt_of_le_of_lt hle (by decide)
  unfold RangeCheckBuiltinRunner.GetAllocatedMemoryUnits
  rw [if_pos (show r.Ratio = 0 from hratio), hused]
  simp only [hipc, RangeCheckBuiltinRunner.CellsPerInstance, CELLS_PER_RANGE_CHECK,
    Nat.div_one, one_mul, if_neg (show ¬ (1 = 0) by decide)]
  rw [Nat.mod_eq_of_lt (show 1 < 2 ^ 64 by decide), one_mul, Nat.mod_eq_of_lt hlt]

theorem NextPowOf2_pos (n : Nat) : 0 < NextPowOf2 n := by
  unfold NextPowOf2
  exact Nat.pow_pos (by decide)

theorem RangeCheckBuiltinRunner.GetAllocatedMemoryUnits_dynamic_wrapped
    (r : RangeCheckBuiltinRunner) (segments : MemorySegmentManager) (currentStep used : Nat)
    (hratio : r.ratio = 0) (hipc : r.instancesPerComponent ≠ 0)
    (hused : segments.GetSegmentUsedSize (uintOfInt r.base.SegmentIndex) = .ok used) :
    r.GetAllocatedMemoryUnits segments currentStep =
      .ok (r.CellsPerInstance * r.instancesPerComponent % 2 ^ 64 *
        NextPowOf2 (used / r.CellsPerInstance / r.instancesPerComponent) % 2 ^ 64) := by
  unfold RangeCheckBuiltinRunner.GetAllocatedMemoryUnits
  rw [if_pos (show r.Ratio = 0 from hratio), hused]
  simp only [if_neg hipc]

theorem uint_product_exact (a b c : Nat) (hc : 0 < c) (hfit : a * b * c < 2 ^ 64) :
    a * b % 2 ^ 64 * c % 2 ^ 64 = a * b * c := by
  have hab : a * b ≤ a * b * c := Nat.le_mul_of_pos_right _ hc
  rw [Nat.mod_eq_of_lt (lt_of_le_of_lt hab hfit), Nat.mod_eq_of_lt hfit]

theorem Felt.natAbs_ToSigned_lt (f : Felt) : f.ToSigned.natAbs < 2 ^ 256 := by
  have hc := f.canonical
  have hp : PRIME < 2 ^ 256 := by decide
  unfold Felt.ToSigned
  split <;> omega

theorem bigIntBitLen_ge_iff (f : Felt) (k : Nat) :
    bigIntBitLen f.ToSigned ≥ k + 1 ↔ 2 ^ k ≤ f.ToSigned.natAbs := by
  have h := bitLen_le_iff 256 f.ToSigned.natAbs k f.natAbs_ToSigned_lt
  unfold bigIntBitLen
  constructor
  · intro hge
    by_contra hlt
    have := h.2 (Nat.lt_of_not_le hlt)
    omega
  · intro hle
    by_contra hlt
    have := h.1 (by omega)
    omega

/-- The hint `assert_nn` succeeds exactly on the values below `2 ^ 127`. -/
theorem assert_nn_succeeds_iff (ids : IdsManager) (vm : VirtualMachine) (a : Felt)
    (ha : ids.GetFelt "a" vm = .ok a) :
    assert_nn ids vm = none ↔ a.val < 2 ^ 127 := by
  have hbits := a.Bits_le_iff 127
  have hbound : RANGE_CHECK_N_PARTS * INNER_RC_BOUND_SHIFT = 128 := by decide
  unfold assert_nn
  rw [ha, hbound]
  by_cases hb : a.Bits ≥ 128
  · simp only [if_pos hb]
    constructor
    · intro h
      cases h
    · intro h
      have := hbits.2 h
      omega
  · simp only [if_neg hb]
    constructor
    · intro _
      exact hbits.1 (by omega)
    · intro _
      trivial

/-- The hint `is_positive` fails with its out-of-range error exactly on the values whose
signed view is at least `2 ^ 127` in absolute value. -/
theorem is_positive_out_of_range_iff (ids : IdsManager) (vm : VirtualMachine) (value : Felt)
    (hvalue : ids.GetFelt "value" vm = .ok value) :
    (is_positive ids vm).2 = some (.IsPositiveOutOfRange value.ToSigned) ↔
      2 ^ 127 ≤ value.ToSigned.natAbs := by
  have hlen := bigIntBitLen_ge_iff value 127
  have hbound : RANGE_CHECK_N_PARTS * INNER_RC_BOUND_SHIFT = 127 + 1 := by decide
  unfold is_positive
  rw [hvalue, hbound]
  by_cases hb : bigIntBitLen value.ToSigned ≥ 127 + 1
  · simp only [if_pos hb]
    exact ⟨fun _ => hlen.1 hb, fun _ => trivial⟩
  · simp only [if_neg hb]
    constructor
    · intro h
      cases h
    · intro h
      exact absurd (hlen.2 h) hb

theorem RangeCheckBuiltinRunner.after_fields (r : RangeCheckBuiltinRunner) (op : RunnerOp) :
    (r.after op).instancesPerComponent = r.instancesPerComponent ∧
    (r.after op).ratio = r.ratio := by
  cases op <;> exact ⟨rfl, rfl⟩

theorem RangeCheckBuiltinRunner.afterAll_fields (ops : List RunnerOp) :
    ∀ r : RangeCheckBuiltinRunner,
      (r.afterAll ops).instancesPerComponent = r.instancesPerComponent ∧
      (r.afterAll ops).ratio = r.ratio := by
  induction ops with
  | nil =>
    intro r
    exact ⟨rfl, rfl⟩
  | cons op ops ih =>
    intro r
    have hop := r.after_fields op
    have hrest := ih (r.after op)
    exact ⟨hrest.1.trans hop.1, hrest.2.trans hop.2⟩

/-! ## The range-check validation rule -/

/-- C1: for every memory and address, `N_PARTS * INNER_RC_BOUND_SHIFT` is 128 and: when
the cell holds `Int(f)`, the bound `f.Bits() <= 128` says exactly that the canonical
representative of `f` is below `2 ^ 128`, the rule succeeds iff that bound holds, on
success it returns the one-element list `[address]`, and when `f.Bits() > 128` it fails
with the outside-bounds error; when the cell holds an address the rule fails with the
not-a-felt error.  The outside-bounds error is the range-check error that carries the
Felt, the not-a-felt error the range-check error that carries the stored address and the
address of the cell. -/
theorem RangeCheckValidationRule_accepts_iff (mem : Memory) (address : Relocatable) :
    N_PARTS * INNER_RC_BOUND_SHIFT = 128 ∧
    (∀ f : Felt, mem.Get address = .ok (.felt f) →
      (f.Bits ≤ 128 ↔ f.val < 2 ^ 128) ∧
      ((∃ validated, RangeCheckValidationRule mem address = .ok validated) ↔ f.Bits ≤ 128) ∧
      (f.Bits ≤ 128 → RangeCheckValidationRule mem address = .ok [address]) ∧
      (128 < f.Bits →
        RangeCheckValidationRule mem address = .error (OutsideBoundsError f))) ∧
    (∀ r : Relocatable, mem.Get address = .ok (.relocatable r) →
      RangeCheckValidationRule mem address =
        .error (NotAFeltError address (.relocatable r)) ∧
      NotAFeltError address (.relocatable r) = RangeCheckError (.NotAFelt r address)) ∧
    (∀ f : Felt, mem.Get address = .ok (.felt f) → 128 < f.Bits →
      RangeCheckValidationRule mem address = .error (.RangeCheck (.OutsideBounds f))) ∧
    (∀ r : Relocatable, mem.Get address = .ok (.relocatable r) →
      RangeCheckValidationRule mem address = .error (.RangeCheck (.NotAFelt r address))) := by
  refine ⟨by decide, ?_, ?_, ?_, ?_⟩
  · intro f hget
    have hbound : N_PARTS * INNER_RC_BOUND_SHIFT = 128 := by decide
    refine ⟨f.Bits_le_iff 128, ?_, ?_, ?_⟩
    · by_cases hb : f.Bits ≤ 128
      · simp [RangeCheckValidationRule, hget, MaybeRelocatable.GetFelt, hbound, hb]
      · simp [RangeCheckValidationRule, hget, MaybeRelocatable.GetFelt, hbound, hb]
    · intro hb
      simp [RangeCheckValidationRule, hget, MaybeRelocatable.GetFelt, hbound, hb]
    · intro hb
      have hb2 : ¬ f.Bits ≤ 128 := by omega
      simp [RangeCheckValidationRule, hget, MaybeRelocatable.GetFelt, hbound, hb2]
  · intro r hget
    refine ⟨?_, rfl⟩
    simp [RangeCheckValidationRule, hget, MaybeRelocatable.GetFelt]
  · intro f hget hb
    have hbound : N_PARTS * INNER_RC_BOUND_SHIFT = 128 := by decide
    have hb2 : ¬ f.Bits ≤ 128 := by omega
    simp [RangeCheckValidationRule, hget, MaybeRelocatable.GetFelt, hbound, hb2,
      OutsideBoundsError, RangeCheckError]
  · intro r hget
    simp [RangeCheckValidationRule, hget, MaybeRelocatable.GetFelt, NotAFeltError,
      MaybeRelocatable.GetRelocatable, RangeCheckError]

set_option maxRecDepth 4096 in
/-- Scenario S6 through the rule of C1: a cell holding `Felt(55)` is validated, a cell
holding `Felt(2^129)` is outside the bounds, and a cell holding `Addr(0,0)` is not a
felt. -/
theorem RangeCheckValidationRule_accepts_iff_witness :
    RangeCheckValidationRule memS6Felt (NewRelocatable 2 0) = .ok [NewRelocatable 2 0] ∧
    RangeCheckValidationRule memS6Big (NewRelocatable 2 0) =
      .error (OutsideBoundsError felt_2_129) ∧
    RangeCheckValidationRule memS6Addr (NewRelocatable 2 0) =
      .error (NotAFeltError (NewRelocatable 2 0) (.relocatable (NewRelocatable 0 0))) ∧
    RangeCheckValidationRule memS6Big (NewRelocatable 2 0) =
      .error (.RangeCheck (.OutsideBounds felt_2_129)) ∧
    RangeCheckValidationRule memS6Addr (NewRelocatable 2 0) =
      .error (.RangeCheck (.NotAFelt (NewRelocatable 0 0) (NewRelocatable 2 0))) :=
  ⟨((RangeCheckValidationRule_accepts_iff memS6Felt (NewRelocatable 2 0)).2.1
      (FeltFromUint64 55) rfl).2.2.1 (by decide),
    ((RangeCheckValidationRule_accepts_iff memS6Big (NewRelocatable 2 0)).2.1
      felt_2_129 rfl).2.2.2 (by decide),
    ((RangeCheckValidationRule_accepts_iff memS6Addr (NewRelocatable 2 0)).2.2.1
      (NewRelocatable 0 0) rfl).1,
    (RangeCheckValidationRule_accepts_iff memS6Big (NewRelocatable 2 0)).2.2.2.1
      felt_2_129 rfl (by decide),
    (RangeCheckValidationRule_accepts_iff memS6Addr (NewRelocatable 2 0)).2.2.2.2
      (NewRelocatable 0 0) rfl⟩

/-! ## PC update -/

/-- C2: with `PcUpdate = Jump`, if `Res = Addr(r)` then `UpdatePc` succeeds and the new pc
is `r` (segment index and offset); if `Res` is absent it fails; if `Res = Int(f)` it fails;
and the error for an absent `Res` differs from the error for an Int `Res`. -/
theorem UpdatePc_Jump (vm : VirtualMachine) (instruction : Instruction)
    (hjump : instruction.PcUpdate = .PcUpdateJump) :
    (∀ (operands : Operands) (r : Relocatable), operands.Res = some (.relocatable r) →
      (vm.UpdatePc instruction operands).2 = none ∧
      (vm.UpdatePc instruction operands).1.RunContext.Pc = r ∧
      (vm.UpdatePc instruction operands).1.RunContext.Pc.SegmentIndex = r.SegmentIndex ∧
      (vm.UpdatePc instruction operands).1.RunContext.Pc.Offset = r.Offset) ∧
    (∀ operands : Operands, operands.Res = none →
      ∃ err, (vm.UpdatePc instruction operands).2 = some err) ∧
    (∀ (operands : Operands) (f : Felt), operands.Res = some (.felt f) →
      ∃ err, (vm.UpdatePc instruction operands).2 = some err) ∧
    (∀ (absent withInt : Operands) (f : Felt), absent.Res = none →
      withInt.Res = some (.felt f) →
      (vm.UpdatePc instruction absent).2 ≠ (vm.UpdatePc instruction withInt).2) := by
  refine ⟨?_, ?_, ?_, ?_⟩
  · intro operands r hres
    simp [VirtualMachine.UpdatePc, hjump, hres, MaybeRelocatable.GetRelocatable,
      VirtualMachine.setPc]
  · intro operands hres
    simp [VirtualMachine.UpdatePc, hjump, hres]
  · intro operands f hres
    simp [VirtualMachine.UpdatePc, hjump, hres, MaybeRelocatable.GetRelocatable]
  · intro absent withInt f habsent hint
    simp [VirtualMachine.UpdatePc, hjump, habsent, hint, MaybeRelocatable.GetRelocatable]

/-- Scenario S2 through C2: `res = Addr(2,7)` gives `pc = (2,7)` without error, and
`res = Int(5)` and an absent `res` fail with different errors. -/
theorem UpdatePc_Jump_witness :
    (((vmWith (NewRelocatable 0 0) (NewRelocatable 1 0) (NewRelocatable 1 0)).UpdatePc
        { PcUpdate := .PcUpdateJump }
        (operandsWith (intValue 0) (some (addrValue 2 7)) (intValue 0))).2 = none ∧
      ((vmWith (NewRelocatable 0 0) (NewRelocatable 1 0) (NewRelocatable 1 0)).UpdatePc
        { PcUpdate := .PcUpdateJump }
        (operandsWith (intValue 0) (some (addrValue 2 7)) (intValue 0))).1.RunContext.Pc =
        NewRelocatable 2 7) ∧
    ((vmWith (NewRelocatable 0 0) (NewRelocatable 1 0) (NewRelocatable 1 0)).UpdatePc
        { PcUpdate := .PcUpdateJump }
        (operandsWith (intValue 0) none (intValue 0))).2 ≠
      ((vmWith (NewRelocatable 0 0) (NewRelocatable 1 0) (NewRelocatable 1 0)).UpdatePc
        { PcUpdate := .PcUpdateJump }
        (operandsWith (intValue 0) (some (intValue 5)) (intValue 0))).2 :=
  ⟨⟨((UpdatePc_Jump (vmWith (NewRelocatable 0 0) (NewRelocatable 1 0) (NewRelocatable 1 0))
        { PcUpdate := .PcUpdateJump } rfl).1
        (operandsWith (intValue 0) (some (addrValue 2 7)) (intValue 0))
        (NewRelocatable 2 7) rfl).1,
     ((UpdatePc_Jump (vmWith (NewRelocatable 0 0) (NewRelocatable 1 0) (NewRelocatable 1 0))
        { PcUpdate := .PcUpdateJump } rfl).1
        (operandsWith (intValue 0) (some (addrValue 2 7)) (intValue 0))
        (NewRelocatable 2 7) rfl).2.1⟩,
   (UpdatePc_Jump (vmWith (NewRelocatable 0 0) (NewRelocatable 1 0) (NewRelocatable 1 0))
      { PcUpdate := .PcUpdateJump } rfl).2.2.2
      (operandsWith (intValue 0) none (intValue 0))
      (operandsWith (intValue 0) (some (intValue 5)) (intValue 0))
      (FeltFromUint64 5) rfl rfl⟩

/-- C3: with `PcUpdate = Jnz`, `Dst.IsZero()` holds exactly for `Int(0)`; if `Dst` is
`Int(0)` then `UpdatePc` succeeds and the new pc keeps its segment and has offset
`pc.offset + instruction.Size()` (a `uint` addition); if `Dst` is anything else (a
non-zero Int or an address) then `UpdatePc` performs `pc := pc + Op1` by tagged-value
addition: the new pc is that sum when the addition succeeds, which for an Int `Op1` that
fits in an offset keeps the segment and shifts the offset by `Op1`, and `UpdatePc` fails
with the error of the addition otherwise, as it does when `Op1` is an address. -/
theorem UpdatePc_Jnz (vm : VirtualMachine) (instruction : Instruction) (operands : Operands)
    (hjnz : instruction.PcUpdate = .PcUpdateJnz) :
    (operands.Dst.IsZero = true ↔ ∃ f : Felt, operands.Dst = .felt f ∧ f.val = 0) ∧
    (operands.Dst.IsZero = true →
      vm.UpdatePc instruction operands =
        (vm.setPc (NewRelocatable vm.RunContext.Pc.SegmentIndex
          ((vm.RunContext.Pc.Offset + instruction.Size) % 2 ^ 64)), none) ∧
      (vm.UpdatePc instruction operands).2 = none ∧
      (vm.UpdatePc instruction operands).1.RunContext.Pc =
        NewRelocatable vm.RunContext.Pc.SegmentIndex
          ((vm.RunContext.Pc.Offset + instruction.Size) % 2 ^ 64) ∧
      (vm.UpdatePc instruction operands).1.RunContext.Pc.SegmentIndex =
        vm.RunContext.Pc.SegmentIndex ∧
      (vm.UpdatePc instruction operands).1.RunContext.Pc.Offset =
        (vm.RunContext.Pc.Offset + instruction.Size) % 2 ^ 64) ∧
    (operands.Dst.IsZero = false →
      (∀ new_pc, vm.RunContext.Pc.AddMaybeRelocatable operands.Op1 = .ok new_pc →
        vm.UpdatePc instruction operands = (vm.setPc new_pc, none) ∧
        (vm.UpdatePc instruction operands).2 = none ∧
        (vm.UpdatePc instruction operands).1.RunContext.Pc = new_pc) ∧
      (∀ err, vm.RunContext.Pc.AddMaybeRelocatable operands.Op1 = .error err →
        vm.UpdatePc instruction operands = (vm, some err) ∧
        (vm.UpdatePc instruction operands).1.RunContext.Pc = vm.RunContext.Pc) ∧
      (∀ g : Felt, operands.Op1 = .felt g → g.val < 2 ^ 64 →
        vm.UpdatePc instruction operands =
          (vm.setPc (NewRelocatable vm.RunContext.Pc.SegmentIndex
            ((vm.RunContext.Pc.Offset + g.val) % 2 ^ 64)), none) ∧
        (vm.UpdatePc instruction operands).2 = none ∧
        (vm.UpdatePc instruction operands).1.RunContext.Pc =
          NewRelocatable vm.RunContext.Pc.SegmentIndex
            ((vm.RunContext.Pc.Offset + g.val) % 2 ^ 64) ∧
        (vm.UpdatePc instruction operands).1.RunContext.Pc.SegmentIndex =
          vm.RunContext.Pc.SegmentIndex ∧
        (vm.UpdatePc instruction operands).1.RunContext.Pc.Offset =
          (vm.RunContext.Pc.Offset + g.val) % 2 ^ 64) ∧
      (∀ r : Relocatable, operands.Op1 = .relocatable r →
        vm.UpdatePc instruction operands = (vm, some .AddressToAddress) ∧
        (vm.UpdatePc instruction operands).1.RunContext.Pc = vm.RunContext.Pc)) := by
  refine ⟨operands.Dst.IsZero_iff, ?_, ?_⟩
  · intro hz
    have hstep : vm.UpdatePc instruction operands =
        (vm.setPc (NewRelocatable vm.RunContext.Pc.SegmentIndex
          ((vm.RunContext.Pc.Offset + instruction.Size) % 2 ^ 64)), none) := by
      simp [VirtualMachine.UpdatePc, hjnz, hz, NewRelocatable]
    refine ⟨hstep, ?_, ?_, ?_, ?_⟩ <;> rw [hstep] <;> rfl
  · intro hz
    have hok : ∀ new_pc, vm.RunContext.Pc.AddMaybeRelocatable operands.Op1 = .ok new_pc →
        vm.UpdatePc instruction operands = (vm.setPc new_pc, none) := by
      intro new_pc hadd
      simp [VirtualMachine.UpdatePc, hjnz, hz, hadd]
    have herr : ∀ err, vm.RunContext.Pc.AddMaybeRelocatable operands.Op1 = .error err →
        vm.UpdatePc instruction operands = (vm, some err) := by
      intro err hadd
      simp [VirtualMachine.UpdatePc, hjnz, hz, hadd]
    refine ⟨?_, ?_, ?_, ?_⟩
    · intro new_pc hadd
      have hstep := hok new_pc hadd
      refine ⟨hstep, ?_, ?_⟩
      · rw [hstep]
      · rw [hstep]
        rfl
    · intro err hadd
      have hstep := herr err hadd
      refine ⟨hstep, ?_⟩
      rw [hstep]
    · intro g hop1 hfits
      have hadd : vm.RunContext.Pc.AddMaybeRelocatable operands.Op1 =
          .ok (NewRelocatable vm.RunContext.Pc.SegmentIndex
            ((vm.RunContext.Pc.Offset + g.val) % 2 ^ 64)) := by
        rw [hop1]
        exact (vm.RunContext.Pc.AddFelt_ok_iff g _).2 ⟨hfits, rfl⟩
      have hstep := hok _ hadd
      refine ⟨hstep, ?_, ?_, ?_, ?_⟩ <;> rw [hstep] <;> rfl
    · intro r hop1
      have hadd : vm.RunContext.Pc.AddMaybeRelocatable operands.Op1 =
          .error .AddressToAddress := by
        rw [hop1]
        rfl
      have hstep := herr _ hadd
      refine ⟨hstep, ?_⟩
      rw [hstep]

/-- Scenario S3 through C3: from `pc = (0,10)`, `dst = Int(3)` and `op1 = Int(4)` give no
error and `pc = (0,14)`, and `dst = Int(0)` with an instruction of size 1 gives no error
and `pc = (0,11)`. -/
theorem UpdatePc_Jnz_witness :
    ((vmS3.UpdatePc instrJnz (operandsWith (intValue 3) none (intValue 4))).2 = none ∧
      (vmS3.UpdatePc instrJnz (operandsWith (intValue 3) none (intValue 4))).1.RunContext.Pc =
        NewRelocatable 0 14) ∧
    ((vmS3.UpdatePc instrJnz (operandsWith (intValue 0) none (intValue 4))).2 = none ∧
      (vmS3.UpdatePc instrJnz (operandsWith (intValue 0) none (intValue 4))).1.RunContext.Pc =
        NewRelocatable 0 11) :=
  ⟨⟨(((UpdatePc_Jnz vmS3 instrJnz (operandsWith (intValue 3) none (intValue 4)) rfl).2.2
        rfl).2.2.1 (FeltFromUint64 4) rfl (by decide)).2.1,
     (((UpdatePc_Jnz vmS3 instrJnz (operandsWith (intValue 3) none (intValue 4)) rfl).2.2
        rfl).2.2.1 (FeltFromUint64 4) rfl (by decide)).2.2.1⟩,
   ⟨((UpdatePc_Jnz vmS3 instrJnz (operandsWith (intValue 0) none (intValue 4)) rfl).2.1
        rfl).2.1,
     ((UpdatePc_Jnz vmS3 instrJnz (operandsWith (intValue 0) none (intValue 4)) rfl).2.1
        rfl).2.2.1⟩⟩

/-- C4: with `PcUpdate = JumpRel`, if `Res = Int(f)` and `pc.AddFelt(f)` succeeds then
`UpdatePc` succeeds and the new pc is that sum, which has the segment index of the old pc
and the offset shifted by `f`; if `Res` is absent it fails; if `Res = Addr(r)` it fails;
and if `pc.AddFelt(f)` fails then `UpdatePc` fails with the error of `AddFelt`. -/
theorem UpdatePc_JumpRel (vm : VirtualMachine) (instruction : Instruction)
    (operands : Operands) (hrel : instruction.PcUpdate = .PcUpdateJumpRel) :
    (∀ (f : Felt) (new_pc : Relocatable), operands.Res = some (.felt f) →
      vm.RunContext.Pc.AddFelt f = .ok new_pc →
      vm.UpdatePc instruction operands = (vm.setPc new_pc, none) ∧
      (vm.UpdatePc instruction operands).1.RunContext.Pc = new_pc ∧
      new_pc.SegmentIndex = vm.RunContext.Pc.SegmentIndex ∧
      new_pc.Offset = (vm.RunContext.Pc.Offset + f.val) % 2 ^ 64) ∧
    (operands.Res = none → ∃ err, vm.UpdatePc instruction operands = (vm, some err)) ∧
    (∀ r : Relocatable, operands.Res = some (.relocatable r) →
      ∃ err, vm.UpdatePc instruction operands = (vm, some err)) ∧
    (∀ (f : Felt) (err : VMError), operands.Res = some (.felt f) →
      vm.RunContext.Pc.AddFelt f = .error err →
      vm.UpdatePc instruction operands = (vm, some err)) := by
  refine ⟨?_, ?_, ?_, ?_⟩
  · intro f new_pc hres hadd
    have hnew := (vm.RunContext.Pc.AddFelt_ok_iff f new_pc).1 hadd
    refine ⟨?_, ?_, ?_, ?_⟩
    · simp [VirtualMachine.UpdatePc, hrel, hres, MaybeRelocatable.GetInt,
        MaybeRelocatable.GetFelt, hadd]
    · simp [VirtualMachine.UpdatePc, hrel, hres, MaybeRelocatable.GetInt,
        MaybeRelocatable.GetFelt, hadd, VirtualMachine.setPc]
    · rw [hnew.2]; rfl
    · rw [hnew.2]; rfl
  · intro hres
    simp [VirtualMachine.UpdatePc, hrel, hres]
  · intro r hres
    simp [VirtualMachine.UpdatePc, hrel, hres, MaybeRelocatable.GetInt,
      MaybeRelocatable.GetFelt]
  · intro f err hres hadd
    simp [VirtualMachine.UpdatePc, hrel, hres, MaybeRelocatable.GetInt,
      MaybeRelocatable.GetFelt, hadd]

/-- An instance of C4: from `pc = (0,10)`, `res = Int(4)` gives `pc = (0,14)`, and
`res = Int(2^129)`, which does not fit in an offset, fails with the error of `AddFelt`. -/
theorem UpdatePc_JumpRel_witness :
    vmS3.UpdatePc instrJumpRel (operandsWith (intValue 0) (some (intValue 4)) (intValue 0)) =
      (vmS3.setPc (NewRelocatable 0 14), none) ∧
    vmS3.UpdatePc instrJumpRel
        (operandsWith (intValue 0) (some (.felt felt_2_129)) (intValue 0)) =
      (vmS3, some .OffsetOverflow) :=
  ⟨((UpdatePc_JumpRel vmS3 instrJumpRel
      (operandsWith (intValue 0) (some (intValue 4)) (intValue 0)) rfl).1
      (FeltFromUint64 4) (NewRelocatable 0 14) rfl rfl).1,
   (UpdatePc_JumpRel vmS3 instrJumpRel
      (operandsWith (intValue 0) (some (.felt felt_2_129)) (intValue 0)) rfl).2.2.2
      felt_2_129 .OffsetOverflow rfl rfl⟩

/-! ## AP update -/

/-- C5 as stated fails when the Felt does not fit in an offset: with `ApUpdate = Add`,
`ap = (1,4)` and `res = Int(2^64 + 1)` the addition `ap + res` fails, `UpdateAp` returns
its error and ap is still `(1,4)`: the offset is shifted neither by `2^64 + 1` nor by its
residue `1` modulo `2^64`. -/
theorem UpdateAp_Add_unfit_felt_fails :
    vmS4.RunContext.Ap = NewRelocatable 1 4 ∧
    (vmS4.UpdateAp instrApAdd
      (operandsWith (intValue 0) (some (.felt felt_2_64_plus_1)) (intValue 0))).2 =
      some .OffsetOverflow ∧
    (vmS4.UpdateAp instrApAdd
      (operandsWith (intValue 0) (some (.felt felt_2_64_plus_1)) (intValue 0))).1.RunContext.Ap =
      NewRelocatable 1 4 ∧
    (vmS4.UpdateAp instrApAdd
      (operandsWith (intValue 0) (some (.felt felt_2_64_plus_1)) (intValue 0))).1.RunContext.Ap.Offset ≠
      vmS4.RunContext.Ap.Offset + felt_2_64_plus_1.val ∧
    (vmS4.UpdateAp instrApAdd
      (operandsWith (intValue 0) (some (.felt felt_2_64_plus_1)) (intValue 0))).1.RunContext.Ap.Offset ≠
      (vmS4.RunContext.Ap.Offset + felt_2_64_plus_1.val) % 2 ^ 64 := by
  refine ⟨rfl, rfl, rfl, ?_, ?_⟩
  · decide
  · decide

/-- C5, amended: `UpdateAp` follows the AP-update table: `Regular` leaves the machine
unchanged; `Add1` and `Add2` keep the segment of ap and add 1 resp. 2 to its offset (a
`uint` addition); `Add` with `Res = Int(f)` performs `ap := ap + f`: when the addition
succeeds, which is when `f` fits in an offset, the new ap is the sum, with the segment of
ap and the offset shifted by `f`, and when it fails `UpdateAp` fails with the error of
the addition and leaves ap as it was; `Add` with an absent `Res` fails; `Add` with
`Res = Addr(r)` fails with the address-to-address error. -/
theorem UpdateAp_table (vm : VirtualMachine) (instruction : Instruction)
    (operands : Operands) :
    (instruction.ApUpdate = .ApUpdateRegular →
      vm.UpdateAp instruction operands = (vm, none) ∧
      (vm.UpdateAp instruction operands).1.RunContext.Ap = vm.RunContext.Ap) ∧
    (instruction.ApUpdate = .ApUpdateAdd1 →
      vm.UpdateAp instruction operands =
        (vm.setAp (NewRelocatable vm.RunContext.Ap.SegmentIndex
          ((vm.RunContext.Ap.Offset + 1) % 2 ^ 64)), none) ∧
      (vm.UpdateAp instruction operands).2 = none ∧
      (vm.UpdateAp instruction operands).1.RunContext.Ap =
        NewRelocatable vm.RunContext.Ap.SegmentIndex
          ((vm.RunContext.Ap.Offset + 1) % 2 ^ 64) ∧
      (vm.UpdateAp instruction operands).1.RunContext.Ap.SegmentIndex =
        vm.RunContext.Ap.SegmentIndex ∧
      (vm.UpdateAp instruction operands).1.RunContext.Ap.Offset =
        (vm.RunContext.Ap.Offset + 1) % 2 ^ 64) ∧
    (instruction.ApUpdate = .ApUpdateAdd2 →
      vm.UpdateAp instruction operands =
        (vm.setAp (NewRelocatable vm.RunContext.Ap.SegmentIndex
          ((vm.RunContext.Ap.Offset + 2) % 2 ^ 64)), none) ∧
      (vm.UpdateAp instruction operands).2 = none ∧
      (vm.UpdateAp instruction operands).1.RunContext.Ap =
        NewRelocatable vm.RunContext.Ap.SegmentIndex
          ((vm.RunContext.Ap.Offset + 2) % 2 ^ 64) ∧
      (vm.UpdateAp instruction operands).1.RunContext.Ap.SegmentIndex =
        vm.RunContext.Ap.SegmentIndex ∧
      (vm.UpdateAp instruction operands).1.RunContext.Ap.Offset =
        (vm.RunContext.Ap.Offset + 2) % 2 ^ 64) ∧
    (instruction.ApUpdate = .ApUpdateAdd →
      (∀ (f : Felt) (new_ap : Relocatable), operands.Res = some (.felt f) →
        vm.RunContext.Ap.AddMaybeRelocatable (.felt f) = .ok new_ap →
        vm.UpdateAp instruction operands = (vm.setAp new_ap, none) ∧
        (vm.UpdateAp instruction operands).2 = none ∧
        (vm.UpdateAp instruction operands).1.RunContext.Ap = new_ap ∧
        new_ap.SegmentIndex = vm.RunContext.Ap.SegmentIndex ∧
        new_ap.Offset = (vm.RunContext.Ap.Offset + f.val) % 2 ^ 64) ∧
      (∀ f : Felt, operands.Res = some (.felt f) → f.val < 2 ^ 64 →
        vm.UpdateAp instruction operands =
          (vm.setAp (NewRelocatable vm.RunContext.Ap.SegmentIndex
            ((vm.RunContext.Ap.Offset + f.val) % 2 ^ 64)), none) ∧
        (vm.UpdateAp instruction operands).2 = none ∧
        (vm.UpdateAp instruction operands).1.RunContext.Ap =
          NewRelocatable vm.RunContext.Ap.SegmentIndex
            ((vm.RunContext.Ap.Offset + f.val) % 2 ^ 64) ∧
        (vm.UpdateAp instruction operands).1.RunContext.Ap.SegmentIndex =
          vm.RunContext.Ap.SegmentIndex ∧
        (vm.UpdateAp instruction operands).1.RunContext.Ap.Offset =
          (vm.RunContext.Ap.Offset + f.val) % 2 ^ 64) ∧
      (∀ (f : Felt) (err : VMError), operands.Res = some (.felt f) →
        vm.RunContext.Ap.AddMaybeRelocatable (.felt f) = .error err →
        vm.UpdateAp instruction operands = (vm, some err) ∧
        (vm.UpdateAp instruction operands).1.RunContext.Ap = vm.RunContext.Ap) ∧
      (∀ f : Felt, operands.Res = some (.felt f) → ¬ f.val < 2 ^ 64 →
        vm.UpdateAp instruction operands = (vm, some .OffsetOverflow) ∧
        (vm.UpdateAp instruction operands).1.RunContext.Ap = vm.RunContext.Ap) ∧
      (operands.Res = none → ∃ err, vm.UpdateAp instruction operands = (vm, some err)) ∧
      (∀ r : Relocatable, operands.Res = some (.relocatable r) →
        vm.UpdateAp instruction operands = (vm, some .AddressToAddress))) := by
  refine ⟨?_, ?_, ?_, ?_⟩
  · intro h
    have hstep : vm.UpdateAp instruction operands = (vm, none) := by
      simp [VirtualMachine.UpdateAp, h]
    refine ⟨hstep, ?_⟩
    rw [hstep]
  · intro h
    have hstep : vm.UpdateAp instruction operands =
        (vm.setAp (NewRelocatable vm.RunContext.Ap.SegmentIndex
          ((vm.RunContext.Ap.Offset + 1) % 2 ^ 64)), none) := by
      simp [VirtualMachine.UpdateAp, h, NewRelocatable]
    refine ⟨hstep, ?_, ?_, ?_, ?_⟩
    · rw [hstep]
    · rw [hstep]
      rfl
    · rw [hstep]
      rfl
    · rw [hstep]
      rfl
  · intro h
    have hstep : vm.UpdateAp instruction operands =
        (vm.setAp (NewRelocatable vm.RunContext.Ap.SegmentIndex
          ((vm.RunContext.Ap.Offset + 2) % 2 ^ 64)), none) := by
      simp [VirtualMachine.UpdateAp, h, NewRelocatable]
    refine ⟨hstep, ?_, ?_, ?_, ?_⟩
    · rw [hstep]
    · rw [hstep]
      rfl
    · rw [hstep]
      rfl
    · rw [hstep]
      rfl
  · intro h
    have hok : ∀ (f : Felt) (new_ap : Relocatable), operands.Res = some (.felt f) →
        vm.RunContext.Ap.AddMaybeRelocatable (.felt f) = .ok new_ap →
        vm.UpdateAp instruction operands = (vm.setAp new_ap, none) := by
      intro f new_ap hres hadd
      simp [VirtualMachine.UpdateAp, h, hres, hadd]
    have herr : ∀ (f : Felt) (err : VMError), operands.Res = some (.felt f) →
        vm.RunContext.Ap.AddMaybeRelocatable (.felt f) = .error err →
        vm.UpdateAp instruction operands = (vm, some err) := by
      intro f err hres hadd
      simp [VirtualMachine.UpdateAp, h, hres, hadd]
    refine ⟨?_, ?_, ?_, ?_, ?_, ?_⟩
    · intro f new_ap hres hadd
      have hnew := (vm.RunContext.Ap.AddFelt_ok_iff f new_ap).1 hadd
      have hstep := hok f new_ap hres hadd
      refine ⟨hstep, ?_, ?_, ?_, ?_⟩
      · rw [hstep]
      · rw [hstep]
        rfl
      · rw [hnew.2]
        rfl
      · rw [hnew.2]
        rfl
    · intro f hres hfits
      have hadd : vm.RunContext.Ap.AddMaybeRelocatable (.felt f) =
          .ok (NewRelocatable vm.RunContext.Ap.SegmentIndex
            ((vm.RunContext.Ap.Offset + f.val) % 2 ^ 64)) :=
        (vm.RunContext.Ap.AddFelt_ok_iff f _).2 ⟨hfits, rfl⟩
      have hstep := hok f _ hres hadd
      refine ⟨hstep, ?_, ?_, ?_, ?_⟩
      · rw [hstep]
      · rw [hstep]
        rfl
      · rw [hstep]
        rfl
      · rw [hstep]
        rfl
    · intro f err hres hadd
      have hstep := herr f err hres hadd
      refine ⟨hstep, ?_⟩
      rw [hstep]
    · intro f hres hfits
      have hadd : vm.RunContext.Ap.AddMaybeRelocatable (.felt f) =
          .error .OffsetOverflow := by
        show vm.RunContext.Ap.AddFelt f = .error .OffsetOverflow
        unfold Relocatable.AddFelt
        rw [if_neg hfits]
      have hstep := herr f _ hres hadd
      refine ⟨hstep, ?_⟩
      rw [hstep]
    · intro hres
      simp [VirtualMachine.UpdateAp, h, hres]
    · intro r hres
      simp [VirtualMachine.UpdateAp, h, hres, Relocatable.AddMaybeRelocatable,
        MaybeRelocatable.GetFelt]

/-- Scenario S4 through the amended C5: `ApUpdate = Add`, `res = Int(9)` and `ap = (1,4)`
give no error and `ap = (1,13)`; `Add1` and `Add2` give `(1,5)` and `(1,6)`; `Regular`
leaves `(1,4)`; `res = Int(2^64 + 1)` fails and leaves `(1,4)`. -/
theorem UpdateAp_table_witness :
    ((vmS4.UpdateAp instrApAdd
        (operandsWith (intValue 0) (some (intValue 9)) (intValue 0))).2 = none ∧
      (vmS4.UpdateAp instrApAdd
        (operandsWith (intValue 0) (some (intValue 9)) (intValue 0))).1.RunContext.Ap =
        NewRelocatable 1 13) ∧
    (vmS4.UpdateAp { ApUpdate := .ApUpdateAdd1 }
        (operandsWith (intValue 0) none (intValue 0))).1.RunContext.Ap = NewRelocatable 1 5 ∧
    (vmS4.UpdateAp { ApUpdate := .ApUpdateAdd2 }
        (operandsWith (intValue 0) none (intValue 0))).1.RunContext.Ap = NewRelocatable 1 6 ∧
    (vmS4.UpdateAp { ApUpdate := .ApUpdateRegular }
        (operandsWith (intValue 0) none (intValue 0))).1.RunContext.Ap = NewRelocatable 1 4 ∧
    vmS4.UpdateAp instrApAdd
        (operandsWith (intValue 0) (some (.felt felt_2_64_plus_1)) (intValue 0)) =
      (vmS4, some .OffsetOverflow) :=
  ⟨⟨(((UpdateAp_table vmS4 instrApAdd
        (operandsWith (intValue 0) (some (intValue 9)) (intValue 0))).2.2.2 rfl).2.1
        (FeltFromUint64 9) rfl (by decide)).2.1,
     (((UpdateAp_table vmS4 instrApAdd
        (operandsWith (intValue 0) (some (intValue 9)) (intValue 0))).2.2.2 rfl).2.1
        (FeltFromUint64 9) rfl (by decide)).2.2.1⟩,
   ((UpdateAp_table vmS4 { ApUpdate := .ApUpdateAdd1 }
      (operandsWith (intValue 0) none (intValue 0))).2.1 rfl).2.2.1,
   ((UpdateAp_table vmS4 { ApUpdate := .ApUpdateAdd2 }
      (operandsWith (intValue 0) none (intValue 0))).2.2.1 rfl).2.2.1,
   ((UpdateAp_table vmS4 { ApUpdate := .ApUpdateRegular }
      (operandsWith (intValue 0) none (intValue 0))).1 rfl).2,
   ((((UpdateAp_table vmS4 instrApAdd
      (operandsWith (intValue 0) (some (.felt felt_2_64_plus_1)) (intValue 0))).2.2.2
      rfl).2.2.2.1) felt_2_64_plus_1 rfl (by decide)).1⟩

/-! ## FP update -/

/-- C6: with `FpUpdate = Dst`, if `Dst = Addr(r)` then `UpdateFp` succeeds and the new fp
is `r`, whatever the old fp; if `Dst = Int(f)` then the new fp is `fp + f`, with the
segment of the old fp and the offset shifted by `f`, and `UpdateFp` fails exactly when
that addition fails, with its error. -/
theorem UpdateFp_Dst (vm : VirtualMachine) (instruction : Instruction) (operands : Operands)
    (hdst : instruction.FpUpdate = .FpUpdateDst) :
    (∀ r : Relocatable, operands.Dst = .relocatable r →
      vm.UpdateFp instruction operands = (vm.setFp r, none) ∧
      (vm.UpdateFp instruction operands).1.RunContext.Fp = r) ∧
    (∀ f : Felt, operands.Dst = .felt f →
      (∀ new_fp, vm.RunContext.Fp.AddFelt f = .ok new_fp →
        vm.UpdateFp instruction operands = (vm.setFp new_fp, none) ∧
        (vm.UpdateFp instruction operands).1.RunContext.Fp = new_fp ∧
        new_fp.SegmentIndex = vm.RunContext.Fp.SegmentIndex ∧
        new_fp.Offset = (vm.RunContext.Fp.Offset + f.val) % 2 ^ 64) ∧
      (∀ err, vm.RunContext.Fp.AddFelt f = .error err →
        vm.UpdateFp instruction operands = (vm, some err)) ∧
      ((∃ err, (vm.UpdateFp instruction operands).2 = some err) ↔
        ∃ err, vm.RunContext.Fp.AddFelt f = .error err)) := by
  refine ⟨?_, ?_⟩
  · intro r hr
    simp [VirtualMachine.UpdateFp, hdst, hr, MaybeRelocatable.GetRelocatable,
      VirtualMachine.setFp]
  · intro f hf
    have hstep : vm.UpdateFp instruction operands =
        match vm.RunContext.Fp.AddFelt f with
        | .error err => (vm, some err)
        | .ok new_fp => (vm.setFp new_fp, none) := by
      simp [VirtualMachine.UpdateFp, hdst, hf, MaybeRelocatable.GetRelocatable,
        MaybeRelocatable.GetInt, MaybeRelocatable.GetFelt]
    refine ⟨?_, ?_, ?_⟩
    · intro new_fp hadd
      have hnew := (vm.RunContext.Fp.AddFelt_ok_iff f new_fp).1 hadd
      refine ⟨?_, ?_, ?_, ?_⟩
      · rw [hstep, hadd]
      · rw [hstep, hadd]; rfl
      · rw [hnew.2]; rfl
      · rw [hnew.2]; rfl
    · intro err hadd
      rw [hstep, hadd]
    · rw [hstep]
      cases hadd : vm.RunContext.Fp.AddFelt f with
      | error err => simp
      | ok new_fp => simp

/-- Scenario S5 through C6: `dst = Addr(1,7)` gives `fp = (1,7)`, and `dst = Int(2)` with
`fp = (1,4)` gives `fp = (1,6)`. -/
theorem UpdateFp_Dst_witness :
    vmS5.UpdateFp instrFpDst (operandsWith (addrValue 1 7) none (intValue 0)) =
      (vmS5.setFp (NewRelocatable 1 7), none) ∧
    vmS5.UpdateFp instrFpDst (operandsWith (intValue 2) none (intValue 0)) =
      (vmS5.setFp (NewRelocatable 1 6), none) :=
  ⟨((UpdateFp_Dst vmS5 instrFpDst (operandsWith (addrValue 1 7) none (intValue 0)) rfl).1
      (NewRelocatable 1 7) rfl).1,
   (((UpdateFp_Dst vmS5 instrFpDst (operandsWith (intValue 2) none (intValue 0)) rfl).2
      (FeltFromUint64 2) rfl).1 (NewRelocatable 1 6) rfl).1⟩

/-- C7 as stated fails: with `ap = (1,4)` and `fp = (0,0)` the rule `APPlus2` leaves
`fp = (0,6)`, which is not the address `ap + 2 = (1,6)`: the segment index of fp is still
`0`, not the segment index `1` of ap. -/
theorem UpdateFp_APPlus2_not_ap_plus_2 :
    (vmFpElsewhere.UpdateFp instrCall
        (operandsWith (intValue 0) none (intValue 0))).1.RunContext.Fp = NewRelocatable 0 6 ∧
    vmFpElsewhere.RunContext.Ap = NewRelocatable 1 4 ∧
    (vmFpElsewhere.UpdateFp instrCall
        (operandsWith (intValue 0) none (intValue 0))).1.RunContext.Fp.SegmentIndex ≠
      vmFpElsewhere.RunContext.Ap.SegmentIndex ∧
    ¬ ((vmFpElsewhere.UpdateFp instrCall
        (operandsWith (intValue 0) none (intValue 0))).1.RunContext.Fp.SegmentIndex =
          vmFpElsewhere.RunContext.Ap.SegmentIndex ∧
       (vmFpElsewhere.UpdateFp instrCall
        (operandsWith (intValue 0) none (intValue 0))).1.RunContext.Fp.Offset =
          vmFpElsewhere.RunContext.Ap.Offset + 2) := by
  refine ⟨rfl, rfl, by decide, ?_⟩
  intro h
  exact absurd h.1 (by decide)

/-- C7, amended: with `FpUpdate = APPlus2`, `UpdateFp` succeeds, sets the offset of fp to
`ap.offset + 2` (a `uint` addition) and leaves the segment index of fp as it was; so the
new fp is the address `ap + 2` exactly when the old fp is in the segment of ap. -/
theorem UpdateFp_APPlus2 (vm : VirtualMachine) (instruction : Instruction)
    (operands : Operands) (hcall : instruction.FpUpdate = .FpUpdateAPPlus2) :
    vm.UpdateFp instruction operands =
      (vm.setFp (NewRelocatable vm.RunContext.Fp.SegmentIndex
        ((vm.RunContext.Ap.Offset + 2) % 2 ^ 64)), none) ∧
    (vm.UpdateFp instruction operands).1.RunContext.Fp.Offset =
      (vm.RunContext.Ap.Offset + 2) % 2 ^ 64 ∧
    (vm.UpdateFp instruction operands).1.RunContext.Fp.SegmentIndex =
      vm.RunContext.Fp.SegmentIndex ∧
    ((vm.UpdateFp instruction operands).1.RunContext.Fp =
        NewRelocatable vm.RunContext.Ap.SegmentIndex ((vm.RunContext.Ap.Offset + 2) % 2 ^ 64) ↔
      vm.RunContext.Fp.SegmentIndex = vm.RunContext.Ap.SegmentIndex) := by
  have hstep : vm.UpdateFp instruction operands =
      (vm.setFp (NewRelocatable vm.RunContext.Fp.SegmentIndex
        ((vm.RunContext.Ap.Offset + 2) % 2 ^ 64)), none) := by
    simp [VirtualMachine.UpdateFp, hcall, NewRelocatable]
  refine ⟨hstep, ?_, ?_, ?_⟩
  · rw [hstep]; rfl
  · rw [hstep]; rfl
  · rw [hstep]
    simp [VirtualMachine.setFp, NewRelocatable]

/-- An instance of the amended C7: with `ap = (1,4)`, an fp in segment 1 becomes
`(1,6)`, the address `ap + 2`, and an fp in segment 0 becomes `(0,6)`. -/
theorem UpdateFp_APPlus2_witness :
    vmS4.UpdateFp instrCall (operandsWith (intValue 0) none (intValue 0)) =
      (vmS4.setFp (NewRelocatable 1 6), none) ∧
    vmFpElsewhere.UpdateFp instrCall (operandsWith (intValue 0) none (intValue 0)) =
      (vmFpElsewhere.setFp (NewRelocatable 0 6), none) :=
  ⟨(UpdateFp_APPlus2 vmS4 instrCall (operandsWith (intValue 0) none (intValue 0)) rfl).1,
   (UpdateFp_APPlus2 vmFpElsewhere instrCall
      (operandsWith (intValue 0) none (intValue 0)) rfl).1⟩

/-! ## Allocation accounting of the range-check runner -/

/-- C8: for a runner with `ratio > 0` and a step count `currentStep` (a `uint`), with
`minStep` the `uint` product `ratio * instancesPerComponent`: `GetAllocatedMemoryUnits`
fails with the insufficient-steps error iff `currentStep < minStep`; otherwise it fails
iff `ratio` does not divide `currentStep`, with the error wrapping the failed division;
otherwise it returns `CellsPerInstance * (currentStep / ratio)`.  The result is the same
for every segment manager. -/
theorem GetAllocatedMemoryUnits_fixed_ratio (r : RangeCheckBuiltinRunner)
    (segments : MemorySegmentManager) (currentStep : Nat) (hratio : 0 < r.ratio)
    (hstep : currentStep < 2 ^ 64) :
    ((∃ minStep name, r.GetAllocatedMemoryUnits segments currentStep =
        .error (.InsufficientSteps minStep name)) ↔
      currentStep < r.ratio * r.instancesPerComponent % 2 ^ 64) ∧
    (currentStep < r.ratio * r.instancesPerComponent % 2 ^ 64 →
      r.GetAllocatedMemoryUnits segments currentStep =
        .error (.InsufficientSteps (r.ratio * r.instancesPerComponent % 2 ^ 64) r.Name)) ∧
    (¬ currentStep < r.ratio * r.instancesPerComponent % 2 ^ 64 →
      ((∃ err, r.GetAllocatedMemoryUnits segments currentStep = .error err) ↔
        ¬ r.ratio ∣ currentStep) ∧
      (¬ r.ratio ∣ currentStep →
        r.GetAllocatedMemoryUnits segments currentStep =
          .error (.MemoryUnits (.NotDivisible currentStep r.ratio))) ∧
      (r.ratio ∣ currentStep →
        r.GetAllocatedMemoryUnits segments currentStep =
          .ok (r.CellsPerInstance * (currentStep / r.ratio)))) ∧
    (∀ other : MemorySegmentManager,
      r.GetAllocatedMemoryUnits other currentStep =
        r.GetAllocatedMemoryUnits segments currentStep) := by
  have hval := r.cells_mul_div_lt currentStep hstep
  have heq := r.GetAllocatedMemoryUnits_of_ratio_pos segments currentStep hratio
  refine ⟨?_, ?_, ?_, ?_⟩
  · rw [heq]
    by_cases hmin : currentStep < r.ratio * r.instancesPerComponent % 2 ^ 64
    · rw [if_pos hmin]
      exact ⟨fun _ => hmin, fun _ => ⟨_, _, rfl⟩⟩
    · rw [if_neg hmin]
      refine ⟨?_, fun h => absurd h hmin⟩
      rintro ⟨minStep, name, h⟩
      by_cases hdiv : currentStep % r.ratio ≠ 0
      · rw [if_pos hdiv] at h
        cases h
      · rw [if_neg hdiv] at h
        cases h
  · intro hmin
    rw [heq, if_pos hmin]
  · intro hmin
    rw [heq, if_neg hmin]
    refine ⟨?_, ?_, ?_⟩
    · by_cases hdiv : currentStep % r.ratio ≠ 0
      · rw [if_pos hdiv]
        have hnd : ¬ r.ratio ∣ currentStep := fun hd => hdiv (Nat.mod_eq_zero_of_dvd hd)
        exact ⟨fun _ => hnd, fun _ => ⟨_, rfl⟩⟩
      · rw [if_neg hdiv]
        have hd : r.ratio ∣ currentStep := Nat.dvd_of_mod_eq_zero (not_not.mp hdiv)
        refine ⟨?_, fun h => absurd hd h⟩
        rintro ⟨err, h⟩
        cases h
    · intro hnd
      have hdiv : currentStep % r.ratio ≠ 0 := fun h => hnd (Nat.dvd_of_mod_eq_zero h)
      rw [if_pos hdiv]
    · intro hd
      have hdiv : ¬ currentStep % r.ratio ≠ 0 := not_not.mpr (Nat.mod_eq_zero_of_dvd hd)
      rw [if_neg hdiv, Nat.mod_eq_of_lt hval]
  · intro other
    rw [heq, r.GetAllocatedMemoryUnits_of_ratio_pos other currentStep hratio]

/-- An instance of C8 on the default runner (`ratio = 8`): 7 steps are insufficient,
12 steps are uneven, 16 steps give 2 units. -/
theorem GetAllocatedMemoryUnits_fixed_ratio_witness :
    DefaultRangeCheckBuiltinRunner.GetAllocatedMemoryUnits NewMemorySegmentManager 7 =
      .error (.InsufficientSteps 8 RANGE_CHECK_BUILTIN_NAME) ∧
    DefaultRangeCheckBuiltinRunner.GetAllocatedMemoryUnits NewMemorySegmentManager 12 =
      .error (.MemoryUnits (.NotDivisible 12 8)) ∧
    DefaultRangeCheckBuiltinRunner.GetAllocatedMemoryUnits NewMemorySegmentManager 16 =
      .ok 2 :=
  ⟨(GetAllocatedMemoryUnits_fixed_ratio DefaultRangeCheckBuiltinRunner
      NewMemorySegmentManager 7 (by decide) (by decide)).2.1 (by decide),
   ((GetAllocatedMemoryUnits_fixed_ratio DefaultRangeCheckBuiltinRunner
      NewMemorySegmentManager 12 (by decide) (by decide)).2.2.1 (by decide)).2.1
      (by decide),
   ((GetAllocatedMemoryUnits_fixed_ratio DefaultRangeCheckBuiltinRunner
      NewMemorySegmentManager 16 (by decide) (by decide)).2.2.1 (by decide)).2.2
      (by decide)⟩

/-- C9 as stated fails at `step = 0`: on the default runner (`ratio = 8`) step 0 is
divisible by the ratio, yet `GetAllocatedMemoryUnits` does not return
`CellsPerInstance * 0 / 8 = 0`: it fails because 0 steps are fewer than the 8 required. -/
theorem GetAllocatedMemoryUnits_zero_steps_fails :
    0 < DefaultRangeCheckBuiltinRunner.ratio ∧
    0 % DefaultRangeCheckBuiltinRunner.ratio = 0 ∧
    DefaultRangeCheckBuiltinRunner.GetAllocatedMemoryUnits NewMemorySegmentManager 0 =
      .error (.InsufficientSteps 8 RANGE_CHECK_BUILTIN_NAME) ∧
    ¬ ∃ units, DefaultRangeCheckBuiltinRunner.GetAllocatedMemoryUnits
      NewMemorySegmentManager 0 = .ok units := by
  refine ⟨by decide, by decide, rfl, ?_⟩
  rintro ⟨units, h⟩
  have hfail : DefaultRangeCheckBuiltinRunner.GetAllocatedMemoryUnits
      NewMemorySegmentManager 0 = .error (.InsufficientSteps 8 RANGE_CHECK_BUILTIN_NAME) :=
    rfl
  rw [hfail] at h
  cases h

/-- C9, amended: for a runner with `ratio > 0` and every step (a `uint`) that is divisible
by `ratio` and is at least the `uint` product `ratio * instancesPerComponent`,
`GetAllocatedMemoryUnits` succeeds and returns exactly `CellsPerInstance * step / ratio`. -/
theorem GetAllocatedMemoryUnits_divisible (r : RangeCheckBuiltinRunner)
    (segments : MemorySegmentManager) (step : Nat) (hratio : 0 < r.ratio)
    (hstep : step < 2 ^ 64) (hdiv : step % r.ratio = 0)
    (hmin : r.ratio * r.instancesPerComponent % 2 ^ 64 ≤ step) :
    r.GetAllocatedMemoryUnits segments step = .ok (r.CellsPerInstance * step / r.ratio) := by
  have hval := r.cells_mul_div_lt step hstep
  rw [r.GetAllocatedMemoryUnits_of_ratio_pos segments step hratio,
    if_neg (Nat.not_lt.mpr hmin), if_neg (not_not.mpr hdiv), Nat.mod_eq_of_lt hval]
  simp only [RangeCheckBuiltinRunner.CellsPerInstance, CELLS_PER_RANGE_CHECK, one_mul]

/-- An instance of the amended C9: the default runner at step 24 is allocated
`1 * 24 / 8 = 3` units. -/
theorem GetAllocatedMemoryUnits_divisible_witness :
    DefaultRangeCheckBuiltinRunner.GetAllocatedMemoryUnits NewMemorySegmentManager 24 =
      .ok 3 :=
  GetAllocatedMemoryUnits_divisible DefaultRangeCheckBuiltinRunner NewMemorySegmentManager
    24 (by decide) (by decide) (by decide) (by decide)

/-- C10: for a runner with `ratio > 0`, `GetAllocatedMemoryUnits` is monotonic
non-decreasing in the step: whenever `s1 <= s2`, both calls succeed and the product
`CellsPerInstance * (s2 / ratio)` does not overflow a machine word, the result for `s1` is at
most the result for `s2`. -/
theorem GetAllocatedMemoryUnits_monotone (r : RangeCheckBuiltinRunner)
    (segments1 segments2 : MemorySegmentManager) (s1 s2 a1 a2 : Nat)
    (hratio : 0 < r.ratio) (hle : s1 ≤ s2)
    (hnoOverflow : r.CellsPerInstance * (s2 / r.ratio) < 2 ^ 64)
    (h1 : r.GetAllocatedMemoryUnits segments1 s1 = .ok a1)
    (h2 : r.GetAllocatedMemoryUnits segments2 s2 = .ok a2) :
    a1 ≤ a2 := by
  rw [r.GetAllocatedMemoryUnits_of_ratio_pos segments1 s1 hratio] at h1
  rw [r.GetAllocatedMemoryUnits_of_ratio_pos segments2 s2 hratio] at h2
  split at h1
  · cases h1
  · split at h1
    · cases h1
    · split at h2
      · cases h2
      · split at h2
        · cases h2
        · have e1 := Except.ok.inj h1
          have e2 := Except.ok.inj h2
          have hmono : r.CellsPerInstance * (s1 / r.ratio) ≤
              r.CellsPerInstance * (s2 / r.ratio) :=
            Nat.mul_le_mul_left _ (Nat.div_le_div_right hle)
          rw [← e1, ← e2, Nat.mod_eq_of_lt hnoOverflow,
            Nat.mod_eq_of_lt (lt_of_le_of_lt hmono hnoOverflow)]
          exact hmono

/-- An instance of C10: the default runner is allocated 1 unit at step 8 and 3 units at
step 24. -/
theorem GetAllocatedMemoryUnits_monotone_witness :
    DefaultRangeCheckBuiltinRunner.GetAllocatedMemoryUnits NewMemorySegmentManager 8 =
      .ok 1 ∧
    DefaultRangeCheckBuiltinRunner.GetAllocatedMemoryUnits NewMemorySegmentManager 24 =
      .ok 3 ∧ 1 ≤ 3 :=
  ⟨rfl, rfl,
   GetAllocatedMemoryUnits_monotone DefaultRangeCheckBuiltinRunner NewMemorySegmentManager
    NewMemorySegmentManager 8 24 1 3 (by decide) (by decide) (by decide) rfl rfl⟩

/-- C11 at a failing input: the default runner (ratio 8) with its base at segment 2, a
segment manager in which segment 2 holds no cell, and 7 resp. 12 steps.
`GetAllocatedMemoryUnits` fails (insufficient steps, uneven steps), yet
`GetUsedCellsAndAllocatedSizes` succeeds with `(0, 0)`: the error is never tested and the
size `0` returned with it is compared with the used size `0`. -/
theorem GetUsedCellsAndAllocatedSizes_drops_allocation_error :
    segmentsUnusedBuiltin.GetSegmentUsedSize (uintOfInt runnerAtSegment2.base.SegmentIndex) =
      .ok 0 ∧
    runnerAtSegment2.GetAllocatedMemoryUnits segmentsUnusedBuiltin 7 =
      .error (.InsufficientSteps 8 RANGE_CHECK_BUILTIN_NAME) ∧
    runnerAtSegment2.GetUsedCellsAndAllocatedSizes segmentsUnusedBuiltin 7 = .ok (0, 0) ∧
    runnerAtSegment2.GetAllocatedMemoryUnits segmentsUnusedBuiltin 12 =
      .error (.MemoryUnits (.NotDivisible 12 8)) ∧
    runnerAtSegment2.GetUsedCellsAndAllocatedSizes segmentsUnusedBuiltin 12 = .ok (0, 0) :=
  ⟨rfl, rfl, rfl, rfl, rfl⟩

set_option maxRecDepth 8192 in
/-- C12 as stated fails for a used size above `2 ^ 63`: a runner with ratio 0 (and
`instancesPerComponent = 1`) whose segment holds one cell at the offset `2 ^ 63` has used
size `2 ^ 63 + 1`; the least power of two that is at least as large is `2 ^ 64`, which is
no `uint`, the product wraps and `GetAllocatedMemoryUnits` returns 0, which is neither a
power of two nor at least the used size, and `GetUsedCellsAndAllocatedSizes` reports an
overflow. -/
theorem GetAllocatedMemoryUnits_dynamic_wraps :
    (NewRangeCheckBuiltinRunner 0).ratio = 0 ∧
    (NewRangeCheckBuiltinRunner 0).instancesPerComponent = 1 ∧
    segmentsHugeOffset.GetSegmentUsedSize
      (uintOfInt (NewRangeCheckBuiltinRunner 0).base.SegmentIndex) = .ok (2 ^ 63 + 1) ∧
    (NewRangeCheckBuiltinRunner 0).GetAllocatedMemoryUnits segmentsHugeOffset 0 = .ok 0 ∧
    (¬ ∃ k : Nat, (0 : Nat) = 2 ^ k) ∧
    ¬ (2 ^ 63 + 1 ≤ 0) ∧
    (NewRangeCheckBuiltinRunner 0).GetUsedCellsAndAllocatedSizes segmentsHugeOffset 0 =
      .error (.BuiltinOverflow RANGE_CHECK_BUILTIN_NAME (2 ^ 63 + 1) 0) := by
  refine ⟨rfl, rfl, rfl, rfl, ?_, by decide, rfl⟩
  rintro ⟨k, hk⟩
  have hpos : 0 < 2 ^ k := Nat.pow_pos (by decide)
  omega

/-- C12, amended: in dynamic layout (`ratio = 0`), for a segment manager in which the
segment of the runner has used size `used`: for every `instancesPerComponent > 0` and
every `currentStep`, `GetAllocatedMemoryUnits` succeeds with the `uint` product
`CellsPerInstance * instancesPerComponent * NextPowOf2((used / CellsPerInstance) /
instancesPerComponent)`, the exact product when that is below `2 ^ 64`; for the
range-check runner (`instancesPerComponent = 1`) and a used size of at most `2 ^ 63` the
result is `NextPowOf2(used)`, which is a power of two, is at least `used` and is at most
every power of two that is at least `used`, and `GetUsedCellsAndAllocatedSizes` succeeds
with `(used, NextPowOf2(used))`, reporting no overflow. -/
theorem GetAllocatedMemoryUnits_dynamic (r : RangeCheckBuiltinRunner)
    (segments : MemorySegmentManager) (used : Nat) (hratio : r.ratio = 0)
    (hused : segments.GetSegmentUsedSize (uintOfInt r.base.SegmentIndex) = .ok used) :
    (r.instancesPerComponent ≠ 0 →
      ∀ currentStep : Nat,
        r.GetAllocatedMemoryUnits segments currentStep =
          .ok (r.CellsPerInstance * r.instancesPerComponent % 2 ^ 64 *
            NextPowOf2 (used / r.CellsPerInstance / r.instancesPerComponent) % 2 ^ 64) ∧
        (r.CellsPerInstance * r.instancesPerComponent *
            NextPowOf2 (used / r.CellsPerInstance / r.instancesPerComponent) < 2 ^ 64 →
          r.GetAllocatedMemoryUnits segments currentStep =
            .ok (r.CellsPerInstance * r.instancesPerComponent *
              NextPowOf2 (used / r.CellsPerInstance / r.instancesPerComponent)))) ∧
    (r.instancesPerComponent = 1 → used ≤ 2 ^ 63 →
      (∀ currentStep : Nat,
        r.GetAllocatedMemoryUnits segments currentStep =
          .ok (r.CellsPerInstance * r.instancesPerComponent *
            NextPowOf2 (used / r.CellsPerInstance / r.instancesPerComponent)) ∧
        r.GetAllocatedMemoryUnits segments currentStep = .ok (NextPowOf2 used) ∧
        r.GetUsedCellsAndAllocatedSizes segments currentStep =
          .ok (used, NextPowOf2 used)) ∧
      (∃ k : Nat, NextPowOf2 used = 2 ^ k) ∧
      used ≤ NextPowOf2 used ∧
      (∀ j : Nat, used ≤ 2 ^ j → NextPowOf2 used ≤ 2 ^ j)) := by
  refine ⟨?_, ?_⟩
  · intro hipc currentStep
    have hwrapped := r.GetAllocatedMemoryUnits_dynamic_wrapped segments currentStep used
      hratio hipc hused
    refine ⟨hwrapped, ?_⟩
    intro hfit
    rw [hwrapped, uint_product_exact _ _ _ (NextPowOf2_pos _) hfit]
  · intro hipc hfit
    have hle64 : used ≤ 2 ^ 64 := le_trans hfit (by decide)
    have hge := NextPowOf2_ge used hle64
    refine ⟨?_, ⟨_, rfl⟩, hge, fun j hj => NextPowOf2_le_of_le_two_pow used j hle64 hj⟩
    intro currentStep
    have halloc := r.GetAllocatedMemoryUnits_dynamic_eq segments currentStep used hratio hipc
      hused hfit
    refine ⟨?_, halloc, ?_⟩
    · rw [halloc, hipc]
      simp only [RangeCheckBuiltinRunner.CellsPerInstance, CELLS_PER_RANGE_CHECK, Nat.div_one,
        one_mul]
    · unfold RangeCheckBuiltinRunner.GetUsedCellsAndAllocatedSizes
      rw [hused, halloc]
      simp only [if_neg (Nat.not_lt.mpr hge)]

/-- Instances of the amended C12 on a segment with cells at the offsets 0 to 4 (used size
5): a runner with ratio 0 and two instances per component is allocated
`1 * 2 * NextPowOf2(5 / 2) = 4` units; the range-check runner with ratio 0 is allocated 8
units at every step, and `(5, 8)` is reported. -/
theorem GetAllocatedMemoryUnits_dynamic_witness :
    runnerTwoPerComponent.GetAllocatedMemoryUnits segmentsFiveUsed 3 = .ok 4 ∧
    (NewRangeCheckBuiltinRunner 0).GetAllocatedMemoryUnits segmentsFiveUsed 3 = .ok 8 ∧
    (NewRangeCheckBuiltinRunner 0).GetUsedCellsAndAllocatedSizes segmentsFiveUsed 100 =
      .ok (5, 8) :=
  ⟨(((GetAllocatedMemoryUnits_dynamic runnerTwoPerComponent segmentsFiveUsed 5 rfl rfl).1
      (by decide)) 3).2 (by decide),
   (((GetAllocatedMemoryUnits_dynamic (NewRangeCheckBuiltinRunner 0) segmentsFiveUsed 5
      rfl rfl).2 rfl (by decide)).1 3).2.1,
   (((GetAllocatedMemoryUnits_dynamic (NewRangeCheckBuiltinRunner 0) segmentsFiveUsed 5
      rfl rfl).2 rfl (by decide)).1 100).2.2⟩

/-! ## The state of the range-check runner -/

/-- C17: `InitialStack` returns the one-element list `[Addr(base)]` when the runner is
included and the empty list otherwise; a freshly constructed runner is not included and
has an empty stack; after `Include(true)` the stack is `[Addr(Base())]`, with the base
unchanged; after `Include(false)` it is empty; after `InitializeSegments` the base is the
address returned by `AddSegment` of the segment manager, which has offset 0 and the next
free segment index. -/
theorem InitialStack_spec (r : RangeCheckBuiltinRunner) (ratio : Nat)
    (segments : MemorySegmentManager) :
    r.InitialStack = (if r.included then [MaybeRelocatable.relocatable r.base] else []) ∧
    (NewRangeCheckBuiltinRunner ratio).included = false ∧
    (NewRangeCheckBuiltinRunner ratio).InitialStack = [] ∧
    DefaultRangeCheckBuiltinRunner.InitialStack = [] ∧
    (r.Include true).InitialStack = [MaybeRelocatable.relocatable (r.Include true).Base] ∧
    (r.Include true).Base = r.Base ∧
    (r.Include false).InitialStack = [] ∧
    (r.InitializeSegments segments).1.Base = segments.AddSegment.2 ∧
    (r.InitializeSegments segments).2 = segments.AddSegment.1 ∧
    (r.InitializeSegments segments).1.Base.Offset = 0 ∧
    (r.InitializeSegments segments).1.Base.SegmentIndex =
      (segments.Memory.numSegments : Int) ∧
    (r.InitializeSegments segments).1.included = r.included := by
  refine ⟨?_, rfl, rfl, rfl, rfl, rfl, rfl, rfl, rfl, rfl, rfl, rfl⟩
  unfold RangeCheckBuiltinRunner.InitialStack NewMaybeRelocatableRelocatable
  rfl

/-- C18: `NewRangeCheckBuiltinRunner(ratio)` and `DefaultRangeCheckBuiltinRunner()` (ratio
8) construct a runner with `instancesPerComponent = 1` and the given ratio; every runner
operation preserves `instancesPerComponent` and `ratio`, so after any sequence of
operations on a constructed runner `instancesPerComponent` is 1 and the ratio is the given
one; consequently, for a ratio `> 0` (a `uint`), `GetAllocatedMemoryUnits` fails with the
insufficient-steps error exactly when `currentStep < ratio`, the required minimum being
`ratio`. -/
theorem instancesPerComponent_always_one (ratio : Nat) (ops : List RunnerOp) :
    (NewRangeCheckBuiltinRunner ratio).instancesPerComponent = 1 ∧
    (NewRangeCheckBuiltinRunner ratio).ratio = ratio ∧
    DefaultRangeCheckBuiltinRunner.instancesPerComponent = 1 ∧
    DefaultRangeCheckBuiltinRunner.ratio = 8 ∧
    (∀ (r : RangeCheckBuiltinRunner) (op : RunnerOp),
      (r.after op).instancesPerComponent = r.instancesPerComponent ∧
      (r.after op).ratio = r.ratio) ∧
    ((NewRangeCheckBuiltinRunner ratio).afterAll ops).instancesPerComponent = 1 ∧
    ((NewRangeCheckBuiltinRunner ratio).afterAll ops).ratio = ratio ∧
    (0 < ratio → ratio < 2 ^ 64 →
      ∀ (segments : MemorySegmentManager) (currentStep : Nat),
        ((∃ minStep name,
            ((NewRangeCheckBuiltinRunner ratio).afterAll ops).GetAllocatedMemoryUnits
              segments currentStep = .error (.InsufficientSteps minStep name)) ↔
          currentStep < ratio) ∧
        (currentStep < ratio →
          ((NewRangeCheckBuiltinRunner ratio).afterAll ops).GetAllocatedMemoryUnits
            segments currentStep =
            .error (.InsufficientSteps ratio RANGE_CHECK_BUILTIN_NAME))) := by
  have hfields := RangeCheckBuiltinRunner.afterAll_fields ops (NewRangeCheckBuiltinRunner ratio)
  have hipc : ((NewRangeCheckBuiltinRunner ratio).afterAll ops).instancesPerComponent = 1 :=
    hfields.1
  have hratio : ((NewRangeCheckBuiltinRunner ratio).afterAll ops).ratio = ratio := hfields.2
  refine ⟨rfl, rfl, rfl, rfl, fun r op => r.after_fields op, hipc, hratio, ?_⟩
  intro hpos hlt segments currentStep
  have heq := ((NewRangeCheckBuiltinRunner ratio).afterAll ops).GetAllocatedMemoryUnits_of_ratio_pos
    segments currentStep (by rw [hratio]; exact hpos)
  rw [hipc, hratio, mul_one, Nat.mod_eq_of_lt hlt] at heq
  rw [heq]
  by_cases hmin : currentStep < ratio
  · rw [if_pos hmin]
    exact ⟨⟨fun _ => hmin, fun _ => ⟨_, _, rfl⟩⟩, fun _ => rfl⟩
  · rw [if_neg hmin]
    refine ⟨⟨?_, fun h => absurd h hmin⟩, fun h => absurd h hmin⟩
    rintro ⟨minStep, name, h⟩
    by_cases hdiv : currentStep % ratio ≠ 0
    · rw [if_pos hdiv] at h
      cases h
    · rw [if_neg hdiv] at h
      cases h

/-- An instance of C18: after a run of all six operations the default runner still has
`instancesPerComponent = 1` and ratio 8, and 7 steps are fewer than the 8 it requires. -/
theorem instancesPerComponent_always_one_witness :
    (DefaultRangeCheckBuiltinRunner.afterAll runnerOpsSample).instancesPerComponent = 1 ∧
    (DefaultRangeCheckBuiltinRunner.afterAll runnerOpsSample).ratio = 8 ∧
    (DefaultRangeCheckBuiltinRunner.afterAll runnerOpsSample).GetAllocatedMemoryUnits
      segmentsUnusedBuiltin 7 = .error (.InsufficientSteps 8 RANGE_CHECK_BUILTIN_NAME) :=
  ⟨(instancesPerComponent_always_one 8 runnerOpsSample).2.2.2.2.2.1,
   (instancesPerComponent_always_one 8 runnerOpsSample).2.2.2.2.2.2.1,
   ((instancesPerComponent_always_one 8 runnerOpsSample).2.2.2.2.2.2.2 (by decide)
      (by decide) segmentsUnusedBuiltin 7).2 (by decide)⟩

/-! ## The hints `assert_nn` and `is_positive` -/

set_option maxRecDepth 8192 in
/-- C13 at a failing input: `ids.a` holds `Felt(2^127)`.  The value is below the
range-check bound `2 ^ 128` and the range-check validation rule accepts its cell, yet
`assert_nn` fails with its out-of-range error. -/
theorem assert_nn_rejects_two_pow_127 :
    idsAssertNN.GetFelt "a" vmHolding2pow127 = .ok felt_2_127 ∧
    felt_2_127.val < 2 ^ 128 ∧
    RangeCheckValidationRule vmHolding2pow127.Segments.Memory (NewRelocatable 1 0) =
      .ok [NewRelocatable 1 0] ∧
    assert_nn idsAssertNN vmHolding2pow127 = some (.AssertNNOutOfRange felt_2_127) :=
  ⟨rfl, by decide, rfl, rfl⟩

set_option maxRecDepth 8192 in
/-- C15 at a failing input: `ids.value` holds `Int(5)`, whose signed view `5` is strictly
positive, and the cell of `ids.is_positive` already holds `Int(0)`.  The insertion of
`Int(1)` fails (the memory is write-once), `is_positive` returns no error all the same,
and afterwards the cell of `ids.is_positive` holds `Int(0)`, not `Int(1)`. -/
theorem is_positive_drops_insert_error :
    idsIsPositive.GetFelt "value" vmIsPositiveWritten = .ok (FeltFromUint64 5) ∧
    (FeltFromUint64 5).ToSigned = 5 ∧
    (idsIsPositive.Insert "is_positive" (intValue 1) vmIsPositiveWritten).2 =
      some .InconsistentMemory ∧
    (is_positive idsIsPositive vmIsPositiveWritten).2 = none ∧
    (is_positive idsIsPositive vmIsPositiveWritten).1.Segments.Memory.Get
      (NewRelocatable 1 1) = .ok (intValue 0) ∧
    intValue 0 ≠ intValue 1 :=
  ⟨rfl, by decide, rfl, rfl, rfl, by decide⟩

set_option maxRecDepth 8192 in
/-- C16 at a failing input: `ids.value` holds `Felt(2^127)`.  Its signed view is `2 ^ 127`,
below `rc_bound = 2 ^ 128` in absolute value, yet `is_positive` fails with its
out-of-range error. -/
theorem is_positive_rejects_two_pow_127 :
    idsIsPositive.GetFelt "value" vmHolding2pow127 = .ok felt_2_127 ∧
    felt_2_127.ToSigned = 2 ^ 127 ∧
    felt_2_127.ToSigned.natAbs < 2 ^ (RANGE_CHECK_N_PARTS * INNER_RC_BOUND_SHIFT) ∧
    is_positive idsIsPositive vmHolding2pow127 =
      (vmHolding2pow127, some (.IsPositiveOutOfRange (2 ^ 127))) :=
  ⟨rfl, by decide, by decide, rfl⟩

/-! ## The register updates as a whole -/

/-- C14: the register updates return no error on their non-failing rules: `UpdatePc` with
`PcUpdate = Regular`, `UpdateAp` with `ApUpdate` in `Regular`, `Add1`, `Add2`, and
`UpdateFp` with `FpUpdate` in `Regular`, `APPlus2`.  With `PcUpdate = Regular` the new pc
keeps its segment and has offset `pc.offset + instruction.Size()` (a `uint` addition); with
the `Regular` AP and FP rules ap resp. fp is unchanged. -/
theorem register_updates_total (vm : VirtualMachine) (instruction : Instruction)
    (operands : Operands) :
    (instruction.PcUpdate = .PcUpdateRegular →
      (vm.UpdatePc instruction operands).2 = none ∧
      (vm.UpdatePc instruction operands).1.RunContext.Pc.SegmentIndex =
        vm.RunContext.Pc.SegmentIndex ∧
      (vm.UpdatePc instruction operands).1.RunContext.Pc.Offset =
        (vm.RunContext.Pc.Offset + instruction.Size) % 2 ^ 64) ∧
    (instruction.ApUpdate = .ApUpdateRegular ∨ instruction.ApUpdate = .ApUpdateAdd1 ∨
        instruction.ApUpdate = .ApUpdateAdd2 →
      (vm.UpdateAp instruction operands).2 = none) ∧
    (instruction.FpUpdate = .FpUpdateRegular ∨ instruction.FpUpdate = .FpUpdateAPPlus2 →
      (vm.UpdateFp instruction operands).2 = none) ∧
    (instruction.ApUpdate = .ApUpdateRegular →
      (vm.UpdateAp instruction operands).1.RunContext.Ap = vm.RunContext.Ap) ∧
    (instruction.FpUpdate = .FpUpdateRegular →
      (vm.UpdateFp instruction operands).1.RunContext.Fp = vm.RunContext.Fp) := by
  refine ⟨?_, ?_, ?_, ?_, ?_⟩
  · intro h
    simp [VirtualMachine.UpdatePc, h, VirtualMachine.setPc]
  · intro h
    rcases h with h | h | h <;> simp [VirtualMachine.UpdateAp, h]
  · intro h
    rcases h with h | h <;> simp [VirtualMachine.UpdateFp, h]
  · intro h
    simp [VirtualMachine.UpdateAp, h]
  · intro h
    simp [VirtualMachine.UpdateFp, h]

/-- Scenario S1 through C14: a `Regular` instruction of size 1 at `pc = (0,0)` gives no
error and `pc = (0,1)`, and the `Regular` AP and FP rules give no error. -/
theorem register_updates_total_witness :
    (vmS1.UpdatePc {} (operandsWith (intValue 0) none (intValue 0))).2 = none ∧
    (vmS1.UpdatePc {} (operandsWith (intValue 0) none (intValue 0))).1.RunContext.Pc =
      NewRelocatable 0 1 ∧
    (vmS1.UpdateAp {} (operandsWith (intValue 0) none (intValue 0))).2 = none ∧
    (vmS1.UpdateFp {} (operandsWith (intValue 0) none (intValue 0))).2 = none :=
  ⟨((register_updates_total vmS1 {} (operandsWith (intValue 0) none (intValue 0))).1 rfl).1,
   rfl,
   (register_updates_total vmS1 {} (operandsWith (intValue 0) none (intValue 0))).2.1
     (Or.inl rfl),
   (register_updates_total vmS1 {} (operandsWith (intValue 0) none (intValue 0))).2.2.1
     (Or.inl rfl)⟩

/-- C19: each register update writes only its own register, whether it succeeds or
fails: `UpdatePc` leaves ap, fp, `currentStep` and the segment manager unchanged,
`UpdateAp` leaves pc, fp, `currentStep` and the segment manager unchanged, and `UpdateFp`
leaves pc, ap, `currentStep` and the segment manager unchanged. -/
theorem register_updates_frame (vm : VirtualMachine) (instruction : Instruction)
    (operands : Operands) :
    ((vm.UpdatePc instruction operands).1.RunContext.Ap = vm.RunContext.Ap ∧
      (vm.UpdatePc instruction operands).1.RunContext.Fp = vm.RunContext.Fp ∧
      (vm.UpdatePc instruction operands).1.currentStep = vm.currentStep ∧
      (vm.UpdatePc instruction operands).1.Segments = vm.Segments) ∧
    ((vm.UpdateAp instruction operands).1.RunContext.Pc = vm.RunContext.Pc ∧
      (vm.UpdateAp instruction operands).1.RunContext.Fp = vm.RunContext.Fp ∧
      (vm.UpdateAp instruction operands).1.currentStep = vm.currentStep ∧
      (vm.UpdateAp instruction operands).1.Segments = vm.Segments) ∧
    ((vm.UpdateFp instruction operands).1.RunContext.Pc = vm.RunContext.Pc ∧
      (vm.UpdateFp instruction operands).1.RunContext.Ap = vm.RunContext.Ap ∧
      (vm.UpdateFp instruction operands).1.currentStep = vm.currentStep ∧
      (vm.UpdateFp instruction operands).1.Segments = vm.Segments) := by
  refine ⟨?_, ?_, ?_⟩
  · unfold VirtualMachine.UpdatePc
    split
    · exact ⟨rfl, rfl, rfl, rfl⟩
    · split
      · exact ⟨rfl, rfl, rfl, rfl⟩
      · split <;> exact ⟨rfl, rfl, rfl, rfl⟩
    · split
      · exact ⟨rfl, rfl, rfl, rfl⟩
      · split
        · exact ⟨rfl, rfl, rfl, rfl⟩
        · split <;> exact ⟨rfl, rfl, rfl, rfl⟩
    · split
      · exact ⟨rfl, rfl, rfl, rfl⟩
      · split <;> exact ⟨rfl, rfl, rfl, rfl⟩
  · unfold VirtualMachine.UpdateAp
    split
    · split
      · exact ⟨rfl, rfl, rfl, rfl⟩
      · split <;> exact ⟨rfl, rfl, rfl, rfl⟩
    · exact ⟨rfl, rfl, rfl, rfl⟩
    · exact ⟨rfl, rfl, rfl, rfl⟩
    · exact ⟨rfl, rfl, rfl, rfl⟩
  · unfold VirtualMachine.UpdateFp
    split
    · exact ⟨rfl, rfl, rfl, rfl⟩
    · split
      · exact ⟨rfl, rfl, rfl, rfl⟩
      · dsimp only
        split <;> exact ⟨rfl, rfl, rfl, rfl⟩
    · exact ⟨rfl, rfl, rfl, rfl⟩

/-- C20: the register updates are atomic on failure: if `UpdatePc`, `UpdateAp` or
`UpdateFp` returns an error, the machine after the call (pc, ap, fp, `currentStep`,
segments) is the machine before the call. -/
theorem register_updates_atomic (vm : VirtualMachine) (instruction : Instruction)
    (operands : Operands) :
    (∀ err, (vm.UpdatePc instruction operands).2 = some err →
      (vm.UpdatePc instruction operands).1 = vm) ∧
    (∀ err, (vm.UpdateAp instruction operands).2 = some err →
      (vm.UpdateAp instruction operands).1 = vm) ∧
    (∀ err, (vm.UpdateFp instruction operands).2 = some err →
      (vm.UpdateFp instruction operands).1 = vm) := by
  refine ⟨?_, ?_, ?_⟩
  · intro err
    unfold VirtualMachine.UpdatePc
    split
    · intro h; cases h
    · split
      · intro _; rfl
      · split
        · intro _; rfl
        · intro h; cases h
    · split
      · intro _; rfl
      · split
        · intro _; rfl
        · split
          · intro _; rfl
          · intro h; cases h
    · split
      · intro h; cases h
      · split
        · intro _; rfl
        · intro h; cases h
  · intro err
    unfold VirtualMachine.UpdateAp
    split
    · split
      · intro _; rfl
      · split
        · intro _; rfl
        · intro h; cases h
    · intro h; cases h
    · intro h; cases h
    · intro h; cases h
  · intro err
    unfold VirtualMachine.UpdateFp
    split
    · intro h; cases h
    · split
      · intro h; cases h
      · dsimp only
        split
        · intro _; rfl
        · intro h; cases h
    · intro h; cases h

/-- Instances of C20: a `Jump` with `res = Int(5)`, an `Add` AP update with an absent
`res`, and a `Dst` FP update with a `dst` that does not fit in an offset all fail and
leave the machine as it was. -/
theorem register_updates_atomic_witness :
    (vmS3.UpdatePc instrJump (operandsWith (intValue 0) (some (intValue 5)) (intValue 0))).1 =
      vmS3 ∧
    (vmS4.UpdateAp instrApAdd (operandsWith (intValue 0) none (intValue 0))).1 = vmS4 ∧
    (vmS5.UpdateFp instrFpDst (operandsWith (.felt felt_2_129) none (intValue 0))).1 = vmS5 :=
  ⟨(register_updates_atomic vmS3 instrJump
      (operandsWith (intValue 0) (some (intValue 5)) (intValue 0))).1
      (.New "An integer value as Res cannot be used with PcUpdate.JUMP") rfl,
   (register_updates_atomic vmS4 instrApAdd
      (operandsWith (intValue 0) none (intValue 0))).2.1
      (.New "Res.UNCONSTRAINED cannot be used with ApUpdate.ADD") rfl,
   (register_updates_atomic vmS5 instrFpDst
      (operandsWith (.felt felt_2_129) none (intValue 0))).2.2 .OffsetOverflow rfl⟩

end CairoVM
